import Mathlib

/-!
# Hello-triangle program (`window.cpp`): call-trace model and properties

`window.cpp` is one procedure, `main`, plus two small helpers
(`framebuffer_size_callback`, `processInput`).  Everything it does is a call
into GLFW, GLAD, OpenGL or `std::cout`, so the embedding is a state-passing
translation of the source in which

* every library call appends one `Call` (with its arguments) to a trace;
* every value the environment hands back (did `glfwInit` succeed, which
  object names were generated, what the status queries reported, which key is
  down, which events are pending) is read from an `Env` oracle, over which the
  theorems quantify;
* the `while` loop of `main` is run with a fuel bound on the number of
  evaluations of its condition.

The single window handle is left implicit in the calls that take it.
-/

namespace HelloTriangle

/-! ## Constants and literals appearing in the source -/

/-- Symbolic constants of the GLFW and OpenGL headers that the source mentions
(plus `GLFW_RELEASE`, the other possible answer of `glfwGetKey`).  Their numeric
values live in headers and are not needed. -/
inductive GLConst where
  | GLFW_CONTEXT_VERSION_MAJOR
  | GLFW_CONTEXT_VERSION_MINOR
  | GLFW_OPENGL_PROFILE
  | GLFW_OPENGL_CORE_PROFILE
  | GLFW_RESIZABLE
  | GLFW_FALSE
  | GLFW_KEY_ESCAPE
  | GLFW_PRESS
  | GLFW_RELEASE
  | GL_VERTEX_SHADER
  | GL_FRAGMENT_SHADER
  | GL_COMPILE_STATUS
  | GL_LINK_STATUS
  | GL_ARRAY_BUFFER
  | GL_STATIC_DRAW
  | GL_FLOAT
  | GL_FALSE
  | GL_COLOR_BUFFER_BIT
  | GL_TRIANGLES
  deriving DecidableEq, Repr

/-- An integer argument that the source writes either as a number or as a
header constant (second argument of `glfwWindowHint`). -/
inductive HintValue where
  | num (n : Int)
  | const (c : GLConst)
  deriving DecidableEq, Repr

/-- A decimal `float` literal of the source, kept as written: `mant / 10 ^ decimals`
(`-0.5f` is `⟨-5, 1⟩`, `101.0f` is `⟨1010, 1⟩`). -/
structure FloatLit where
  mant : Int
  decimals : Nat
  deriving DecidableEq, Repr

/-- A `float` argument expression of the source: a literal, or a quotient of two
literals (`101.0f / 255.0f`).  Kept symbolic; no rounding is modelled. -/
inductive FloatExpr where
  | lit (a : FloatLit)
  | quot (a b : FloatLit)
  deriving DecidableEq, Repr

/-- Exact rational value of a literal. -/
def FloatLit.toRat (a : FloatLit) : ℚ := (a.mant : ℚ) / (10 : ℚ) ^ a.decimals

/-- Exact rational value of a float expression (before any rounding). -/
def FloatExpr.toRat : FloatExpr → ℚ
  | .lit a => a.toRat
  | .quot a b => a.toRat / b.toRat

/-- Modelled from the spec: `sizeof(float)`, a platform constant absent from the
source; the spec fixes it as "4 bytes per float". -/
def sizeofFloat : Nat := 4

/-- The functions of this program that can be registered as callbacks. -/
inductive Callback where
  | framebuffer_size_callback
  deriving DecidableEq, Repr

/-- Source text of the vertex shader (lines 10-15), up to the terminating NUL. -/
def vertexShaderSource : String :=
  "#version 330 core\nlayout (location = 0) in vec3 aPos;\nvoid main()\n\x7b\n   gl_Position = vec4(aPos.x, aPos.y, aPos.z, 1.0);\n\x7d"

/-- Source text of the fragment shader (lines 17-22), up to the terminating NUL. -/
def fragmentShaderSource : String :=
  "#version 330 core\nout vec4 FragColor;\nvoid main()\n\x7b\n   FragColor = vec4(0.8f, 0.3f, 0.2f, 1.0f);\n\x7d\n"

/-- The array `float vertices[]` of lines 123-127. -/
def vertices : List FloatLit :=
  [ ⟨-5, 1⟩, ⟨-5, 1⟩, ⟨0, 1⟩,
    ⟨5, 1⟩, ⟨-5, 1⟩, ⟨0, 1⟩,
    ⟨0, 1⟩, ⟨5, 1⟩, ⟨0, 1⟩ ]

/-- The C expression `sizeof(vertices)`: element count times `sizeof(float)`. -/
def sizeofVertices : Nat := vertices.length * sizeofFloat

/-! ## Calls, environment and state -/

/-- One library call (or one `std::cout` statement) issued by the program, with
its arguments; the window handle and arguments that the source passes as `NULL`
or as the address of a local are left out.  The three `glDelete*` calls for
programs, buffers and vertex arrays belong to the API although the source never
issues them. -/
inductive Call where
  | cout (text : String)
  | glfwInit
  | glfwWindowHint (hint : GLConst) (value : HintValue)
  | glfwCreateWindow (width height : Int) (title : String)
  | glfwTerminate
  | glfwMakeContextCurrent
  | glfwSetFramebufferSizeCallback (cb : Callback)
  | gladLoadGLLoader
  | glViewport (x y width height : Int)
  | glCreateShader (kind : GLConst)
  | glShaderSource (shader : Nat) (count : Nat) (source : String)
  | glCompileShader (shader : Nat)
  | glGetShaderiv (shader : Nat) (pname : GLConst)
  | glGetShaderInfoLog (shader : Nat) (maxLength : Nat)
  | glCreateProgram
  | glAttachShader (program shader : Nat)
  | glLinkProgram (program : Nat)
  | glGetProgramiv (program : Nat) (pname : GLConst)
  | glGetProgramInfoLog (program : Nat) (maxLength : Nat)
  | glDeleteShader (shader : Nat)
  | glDeleteProgram (program : Nat)
  | glGenBuffers (n : Nat)
  | glDeleteBuffers (n : Nat) (buffer : Nat)
  | glGenVertexArrays (n : Nat)
  | glDeleteVertexArrays (n : Nat) (array : Nat)
  | glBindVertexArray (array : Nat)
  | glBindBuffer (target : GLConst) (buffer : Nat)
  | glBufferData (target : GLConst) (size : Nat) (data : List FloatLit) (usage : GLConst)
  | glVertexAttribPointer (index : Nat) (size : Nat) (type : GLConst) (normalized : GLConst)
      (stride : Nat) (pointer : Nat)
  | glEnableVertexAttribArray (index : Nat)
  | glfwWindowShouldClose
  | glfwGetKey (key : GLConst)
  | glfwSetWindowShouldClose (value : Bool)
  | glClearColor (red green blue alpha : FloatExpr)
  | glClear (mask : GLConst)
  | glUseProgram (program : Nat)
  | glDrawArrays (mode : GLConst) (first : Nat) (count : Nat)
  | glfwPollEvents
  | glfwSwapBuffers
  deriving DecidableEq, Repr

/-- A pending window event, as delivered during `glfwPollEvents`. -/
inductive Event where
  /-- The environment writes the window close flag (an OS close request writes `true`). -/
  | shouldClose (value : Bool)
  /-- The framebuffer was resized to `width` by `height`. -/
  | framebufferSize (width height : Int)
  deriving DecidableEq, Repr

/-- What the environment presents during one loop iteration. -/
structure FrameInput where
  /-- Whether `glfwGetKey(window, GLFW_KEY_ESCAPE)` reports the key as pressed. -/
  escapePressed : Bool
  /-- The events processed by this iteration's `glfwPollEvents`. -/
  events : List Event

/-- Every answer of the environment to the program's calls. -/
structure Env where
  /-- Result of `glfwInit()`. -/
  glfwInitOk : Bool
  /-- Whether `glfwCreateWindow` returned a non-NULL window. -/
  windowCreated : Bool
  /-- Result of `gladLoadGLLoader`. -/
  gladLoaded : Bool
  /-- Name returned by `glCreateShader(GL_VERTEX_SHADER)`. -/
  vertexShaderName : Nat
  /-- Name returned by `glCreateShader(GL_FRAGMENT_SHADER)`. -/
  fragmentShaderName : Nat
  /-- Name returned by `glCreateProgram()`. -/
  programName : Nat
  /-- Name stored by `glGenBuffers`. -/
  bufferName : Nat
  /-- Name stored by `glGenVertexArrays`. -/
  vertexArrayName : Nat
  /-- Compile status reported for the vertex shader. -/
  vertexCompileOk : Bool
  /-- Compile status reported for the fragment shader. -/
  fragmentCompileOk : Bool
  /-- Link status reported for the program. -/
  linkOk : Bool
  /-- Info log the driver holds for the vertex shader. -/
  vertexLog : String
  /-- Info log the driver holds for the fragment shader. -/
  fragmentLog : String
  /-- Info log the driver holds for the program. -/
  programLog : String
  /-- Input of the `k`-th loop iteration. -/
  frames : Nat → FrameInput

/-- A viewport rectangle. -/
structure Viewport where
  x : Int
  y : Int
  width : Int
  height : Int
  deriving DecidableEq, Repr

/-- Observable state: the calls issued so far, the window and GL state the
program reads or writes, and the reused local buffer `infoLog` of `main`. -/
structure World where
  /-- Calls issued so far, oldest first. -/
  trace : List Call
  /-- The close flag of the window. -/
  shouldClose : Bool
  /-- Current GL viewport; `none` before the first `glViewport`. -/
  viewport : Option Viewport
  /-- Framebuffer-size callback registered on the window. -/
  fbCallback : Option Callback
  /-- Contents of `char infoLog[512]` of `main`; `none` while uninitialised. -/
  infoLog : Option String
  deriving DecidableEq, Repr

/-- State at program start. -/
def World.start : World :=
  { trace := [], shouldClose := false, viewport := none, fbCallback := none, infoLog := none }

/-- Record one call. -/
def World.call : World → Call → World
  | ⟨trace, shouldClose, viewport, fbCallback, infoLog⟩, c =>
    ⟨trace ++ [c], shouldClose, viewport, fbCallback, infoLog⟩

/-- The statement `std::cout << ...;` printing `text`. -/
def World.cout (w : World) (text : String) : World :=
  w.call (.cout text)

/-! ## Library behaviour the program relies on

The effect of the GLFW and OpenGL entry points on the state the program can observe, as
their reference documentation gives it. -/

/-- `glViewport(x, y, width, height)`. -/
def glViewport (x y width height : Int) : World → World
  | ⟨trace, shouldClose, _, fbCallback, infoLog⟩ =>
    ⟨trace ++ [.glViewport x y width height], shouldClose, some ⟨x, y, width, height⟩,
      fbCallback, infoLog⟩

/-- `glfwSetFramebufferSizeCallback(window, cb)`. -/
def glfwSetFramebufferSizeCallback (cb : Callback) : World → World
  | ⟨trace, shouldClose, viewport, _, infoLog⟩ =>
    ⟨trace ++ [.glfwSetFramebufferSizeCallback cb], shouldClose, viewport, some cb, infoLog⟩

/-- `glfwSetWindowShouldClose(window, value)`. -/
def glfwSetWindowShouldClose (value : Bool) : World → World
  | ⟨trace, _, viewport, fbCallback, infoLog⟩ =>
    ⟨trace ++ [.glfwSetWindowShouldClose value], value, viewport, fbCallback, infoLog⟩

/-- `glfwWindowShouldClose(window)`: reads the close flag. -/
def glfwWindowShouldClose : World → Bool × World
  | ⟨trace, shouldClose, viewport, fbCallback, infoLog⟩ =>
    (shouldClose, ⟨trace ++ [.glfwWindowShouldClose], shouldClose, viewport, fbCallback, infoLog⟩)

/-- `glfwGetKey(window, key)`: `GLFW_PRESS` or `GLFW_RELEASE`, as the environment says. -/
def glfwGetKey (pressed : Bool) (key : GLConst) (w : World) : GLConst × World :=
  (if pressed then .GLFW_PRESS else .GLFW_RELEASE, w.call (.glfwGetKey key))

/-- What an info-log query with buffer size `maxLength` leaves in the buffer: at
most `maxLength - 1` characters of the log (the last byte is the NUL). -/
def truncateLog (maxLength : Nat) (log : String) : String :=
  String.mk (log.data.take (maxLength - 1))

/-- `glGetShaderInfoLog(shader, maxLength, NULL, infoLog)`. -/
def glGetShaderInfoLog (log : String) (shader maxLength : Nat) : World → World
  | ⟨trace, shouldClose, viewport, fbCallback, _⟩ =>
    ⟨trace ++ [.glGetShaderInfoLog shader maxLength], shouldClose, viewport, fbCallback,
      some (truncateLog maxLength log)⟩

/-- `glGetProgramInfoLog(program, maxLength, NULL, infoLog)`. -/
def glGetProgramInfoLog (log : String) (program maxLength : Nat) : World → World
  | ⟨trace, shouldClose, viewport, fbCallback, _⟩ =>
    ⟨trace ++ [.glGetProgramInfoLog program maxLength], shouldClose, viewport, fbCallback,
      some (truncateLog maxLength log)⟩

/-- The statement `std::cout << header << infoLog << '\n';`, which reads the
buffer `infoLog` as a C string. -/
def World.coutInfoLog : World → String → World
  | ⟨trace, shouldClose, viewport, fbCallback, infoLog⟩, header =>
    ⟨trace ++ [.cout (header ++ infoLog.getD "" ++ "\n")], shouldClose, viewport, fbCallback,
      infoLog⟩

/-! ## The program -/

/-- Lines 169-171: `framebuffer_size_callback`. -/
def framebuffer_size_callback (width height : Int) (w : World) : World :=
  glViewport 0 0 width height w

/-- Invoke a registered callback. -/
def Callback.invoke : Callback → Int → Int → World → World
  | .framebuffer_size_callback => HelloTriangle.framebuffer_size_callback

/-- Delivery of one event inside `glfwPollEvents`. -/
def deliver (w : World) : Event → World
  | .shouldClose value => ⟨w.trace, value, w.viewport, w.fbCallback, w.infoLog⟩
  | .framebufferSize width height =>
    match w.fbCallback with
    | some cb => cb.invoke width height w
    | none => w

/-- `glfwPollEvents()`: processes the pending events in order. -/
def glfwPollEvents (events : List Event) (w : World) : World :=
  events.foldl deliver (w.call .glfwPollEvents)

/-- Lines 174-178: `processInput`; `pressed` is the environment's answer to
the `glfwGetKey` query. -/
def processInput (pressed : Bool) (w : World) : World :=
  let (key, w) := glfwGetKey pressed .GLFW_KEY_ESCAPE w
  if key = .GLFW_PRESS then
    glfwSetWindowShouldClose true w
  else
    w

/-- Lines 144-160: the body of the `while` loop of `main`. -/
def loopBody (input : FrameInput) (shaderProgram VAO : Nat) (w : World) : World :=
  let w := processInput input.escapePressed w
  let w := w.call (.glClearColor (.quot ⟨1010, 1⟩ ⟨2550, 1⟩) (.quot ⟨330, 1⟩ ⟨2550, 1⟩)
    (.quot ⟨1890, 1⟩ ⟨2550, 1⟩) (.lit ⟨10, 1⟩))
  let w := w.call (.glClear .GL_COLOR_BUFFER_BIT)
  let w := w.call (.glUseProgram shaderProgram)
  let w := w.call (.glBindVertexArray VAO)
  let w := w.call (.glDrawArrays .GL_TRIANGLES 0 3)
  let w := glfwPollEvents input.events w
  let w := w.call .glfwSwapBuffers
  w

/-- Line 143: the `while (!glfwWindowShouldClose(window))` loop, started at
iteration `k`.  Each evaluation of the condition uses one unit of `fuel`; the
second component tells whether the loop has ended (`false`: fuel ran out
while the loop was still running). -/
def frameLoop (env : Env) (shaderProgram VAO : Nat) : Nat → Nat → World → World × Bool
  | 0, _, w => (w, false)
  | fuel + 1, k, w =>
    let (close, w) := glfwWindowShouldClose w
    if !close then
      frameLoop env shaderProgram VAO fuel (k + 1) (loopBody (env.frames k) shaderProgram VAO w)
    else
      (w, true)

/-- Outcome of running `main`: the final state and the value returned, `none`
when the frame loop has not ended within the fuel. -/
structure Run where
  world : World
  exit : Option Int
  deriving DecidableEq, Repr

/-- Lines 25-166: `main`. -/
def main (env : Env) (fuel : Nat) : Run :=
  -- lines 30-61: context bootstrap and function loader
  let w := World.start
  let w := w.call .glfwInit
  if !env.glfwInitOk then
    let w := w.cout "Failed to initialize GLFW\n"
    ⟨w, some (-1)⟩
  else
  let w := w.call (.glfwWindowHint .GLFW_CONTEXT_VERSION_MAJOR (.num 3))
  let w := w.call (.glfwWindowHint .GLFW_CONTEXT_VERSION_MINOR (.num 3))
  let w := w.call (.glfwWindowHint .GLFW_OPENGL_PROFILE (.const .GLFW_OPENGL_CORE_PROFILE))
  let w := w.call (.glfwWindowHint .GLFW_RESIZABLE (.const .GLFW_FALSE))
  let w := w.call (.glfwCreateWindow 800 600 "KREWER TEST")
  if !env.windowCreated then
    let w := w.cout "Failed to create GLFW window\n"
    let w := w.call .glfwTerminate
    ⟨w, some (-1)⟩
  else
  let w := w.call .glfwMakeContextCurrent
  let w := glfwSetFramebufferSizeCallback .framebuffer_size_callback w
  let w := w.call .gladLoadGLLoader
  if !env.gladLoaded then
    let w := w.cout "Failed to initialize GLAD\n"
    ⟨w, some (-1)⟩
  else
  let w := glViewport 0 0 800 600 w
  -- lines 66-83: vertex shader
  let w := w.call (.glCreateShader .GL_VERTEX_SHADER)
  let vertexShader := env.vertexShaderName
  let w := w.call (.glShaderSource vertexShader 1 vertexShaderSource)
  let w := w.call (.glCompileShader vertexShader)
  let w := w.call (.glGetShaderiv vertexShader .GL_COMPILE_STATUS)
  let success := env.vertexCompileOk
  let w :=
    if !success then
      let w := glGetShaderInfoLog env.vertexLog vertexShader 512 w
      w.coutInfoLog "ERROR::SHADER::VERTEX::COMPILATION_FAILED\n"
    else w
  -- lines 85-99: fragment shader
  let w := w.call (.glCreateShader .GL_FRAGMENT_SHADER)
  let fragmentShader := env.fragmentShaderName
  let w := w.call (.glShaderSource fragmentShader 1 fragmentShaderSource)
  let w := w.call (.glCompileShader fragmentShader)
  let w := w.call (.glGetShaderiv fragmentShader .GL_COMPILE_STATUS)
  let success := env.fragmentCompileOk
  let w :=
    if !success then
      let w := glGetShaderInfoLog env.fragmentLog fragmentShader 512 w
      w.coutInfoLog "ERROR::SHADER::VERTEX::COMPILATION_FAILED\n"
    else w
  -- lines 101-120: program
  let w := w.call .glCreateProgram
  let shaderProgram := env.programName
  let w := w.call (.glAttachShader shaderProgram vertexShader)
  let w := w.call (.glAttachShader shaderProgram fragmentShader)
  let w := w.call (.glLinkProgram shaderProgram)
  let w := w.call (.glGetProgramiv shaderProgram .GL_LINK_STATUS)
  let success := env.linkOk
  let w :=
    if !success then
      let w := glGetProgramInfoLog env.programLog shaderProgram 512 w
      w.coutInfoLog "ERROR::SHADER::ATTACHING::COMPILATION_FAILED\n"
    else w
  let w := w.call (.glDeleteShader vertexShader)
  let w := w.call (.glDeleteShader fragmentShader)
  -- lines 129-140: geometry
  let w := w.call (.glGenBuffers 1)
  let VBO := env.bufferName
  let w := w.call (.glGenVertexArrays 1)
  let VAO := env.vertexArrayName
  let w := w.call (.glBindVertexArray VAO)
  let w := w.call (.glBindBuffer .GL_ARRAY_BUFFER VBO)
  let w := w.call (.glBufferData .GL_ARRAY_BUFFER sizeofVertices vertices .GL_STATIC_DRAW)
  let w := w.call (.glVertexAttribPointer 0 3 .GL_FLOAT .GL_FALSE (3 * sizeofFloat) 0)
  let w := w.call (.glEnableVertexAttribArray 0)
  -- lines 143-165: frame loop and teardown
  let (w, ended) := frameLoop env shaderProgram VAO fuel 0 w
  if ended then
    let w := w.call .glfwTerminate
    ⟨w, some 0⟩
  else
    ⟨w, none⟩

/-! ## Descriptions of the call sequences -/

/-- Whether the three fatal start-up steps all succeed. -/
def Env.startupOk (env : Env) : Bool :=
  env.glfwInitOk && env.windowCreated && env.gladLoaded

/-- The same environment with the three status queries answered as given. -/
def Env.withStatuses (env : Env) (vertexOk fragmentOk linkOk : Bool) : Env :=
  { env with vertexCompileOk := vertexOk, fragmentCompileOk := fragmentOk, linkOk := linkOk }

/-- The diagnostic of one status check: nothing on success; on failure the
info-log retrieval followed by one printed message. -/
def diagnostic (ok : Bool) (retrieval : Call) (header log : String) : List Call :=
  if ok then [] else [retrieval, .cout (header ++ truncateLog 512 log ++ "\n")]

/-- Diagnostic of the vertex-shader compile check. -/
def vertexDiagnostic (env : Env) : List Call :=
  diagnostic env.vertexCompileOk (.glGetShaderInfoLog env.vertexShaderName 512)
    "ERROR::SHADER::VERTEX::COMPILATION_FAILED\n" env.vertexLog

/-- Diagnostic of the fragment-shader compile check. -/
def fragmentDiagnostic (env : Env) : List Call :=
  diagnostic env.fragmentCompileOk (.glGetShaderInfoLog env.fragmentShaderName 512)
    "ERROR::SHADER::VERTEX::COMPILATION_FAILED\n" env.fragmentLog

/-- Diagnostic of the program link check. -/
def linkDiagnostic (env : Env) : List Call :=
  diagnostic env.linkOk (.glGetProgramInfoLog env.programName 512)
    "ERROR::SHADER::ATTACHING::COMPILATION_FAILED\n" env.programLog

/-- Calls of the context bootstrap and function loader (lines 30-61). -/
def bootstrapCalls : List Call :=
  [ .glfwInit,
    .glfwWindowHint .GLFW_CONTEXT_VERSION_MAJOR (.num 3),
    .glfwWindowHint .GLFW_CONTEXT_VERSION_MINOR (.num 3),
    .glfwWindowHint .GLFW_OPENGL_PROFILE (.const .GLFW_OPENGL_CORE_PROFILE),
    .glfwWindowHint .GLFW_RESIZABLE (.const .GLFW_FALSE),
    .glfwCreateWindow 800 600 "KREWER TEST",
    .glfwMakeContextCurrent,
    .glfwSetFramebufferSizeCallback .framebuffer_size_callback,
    .gladLoadGLLoader,
    .glViewport 0 0 800 600 ]

/-- Calls of the shader build (lines 66-120). -/
def shaderBuildCalls (env : Env) : List Call :=
  [ .glCreateShader .GL_VERTEX_SHADER,
    .glShaderSource env.vertexShaderName 1 vertexShaderSource,
    .glCompileShader env.vertexShaderName,
    .glGetShaderiv env.vertexShaderName .GL_COMPILE_STATUS ]
  ++ vertexDiagnostic env ++
  [ .glCreateShader .GL_FRAGMENT_SHADER,
    .glShaderSource env.fragmentShaderName 1 fragmentShaderSource,
    .glCompileShader env.fragmentShaderName,
    .glGetShaderiv env.fragmentShaderName .GL_COMPILE_STATUS ]
  ++ fragmentDiagnostic env ++
  [ .glCreateProgram,
    .glAttachShader env.programName env.vertexShaderName,
    .glAttachShader env.programName env.fragmentShaderName,
    .glLinkProgram env.programName,
    .glGetProgramiv env.programName .GL_LINK_STATUS ]
  ++ linkDiagnostic env ++
  [ .glDeleteShader env.vertexShaderName,
    .glDeleteShader env.fragmentShaderName ]

/-- Calls of the geometry upload (lines 129-140). -/
def geometryCalls (env : Env) : List Call :=
  [ .glGenBuffers 1,
    .glGenVertexArrays 1,
    .glBindVertexArray env.vertexArrayName,
    .glBindBuffer .GL_ARRAY_BUFFER env.bufferName,
    .glBufferData .GL_ARRAY_BUFFER 36 vertices .GL_STATIC_DRAW,
    .glVertexAttribPointer 0 3 .GL_FLOAT .GL_FALSE 12 0,
    .glEnableVertexAttribArray 0 ]

/-- Everything issued before the frame loop in a run whose start-up succeeds. -/
def setupCalls (env : Env) : List Call :=
  bootstrapCalls ++ shaderBuildCalls env ++ geometryCalls env

/-- The `glViewport` calls made by the registered callback while the given
events are processed. -/
def callbackCalls (cb : Option Callback) (events : List Event) : List Call :=
  events.filterMap fun e =>
    match e, cb with
    | .framebufferSize width height, some .framebuffer_size_callback =>
      some (.glViewport 0 0 width height)
    | _, _ => none

/-- Calls of `processInput`. -/
def inputCalls (pressed : Bool) : List Call :=
  .glfwGetKey .GLFW_KEY_ESCAPE :: (if pressed then [.glfwSetWindowShouldClose true] else [])

/-- Calls of one loop iteration after its condition test, with the
framebuffer-size callback registered. -/
def iterationCalls (input : FrameInput) (shaderProgram VAO : Nat) : List Call :=
  inputCalls input.escapePressed ++
  [ .glClearColor (.quot ⟨1010, 1⟩ ⟨2550, 1⟩) (.quot ⟨330, 1⟩ ⟨2550, 1⟩)
      (.quot ⟨1890, 1⟩ ⟨2550, 1⟩) (.lit ⟨10, 1⟩),
    .glClear .GL_COLOR_BUFFER_BIT,
    .glUseProgram shaderProgram,
    .glBindVertexArray VAO,
    .glDrawArrays .GL_TRIANGLES 0 3,
    .glfwPollEvents ]
  ++ callbackCalls (some .framebuffer_size_callback) input.events ++
  [ .glfwSwapBuffers ]

/-- Close flag after the events of one poll, starting from `flag`. -/
def flagAfterEvents (events : List Event) (flag : Bool) : Bool :=
  events.foldl (fun f e => match e with
    | .shouldClose value => value
    | .framebufferSize _ _ => f) flag

/-- Close flag at the end of an iteration that started with the flag `flag`. -/
def flagAfter (input : FrameInput) (flag : Bool) : Bool :=
  flagAfterEvents input.events (flag || input.escapePressed)

/-- Calls of the frame loop started at iteration `k` with close flag `flag`,
and whether the loop has ended within the fuel. -/
def loopCalls (env : Env) (shaderProgram VAO : Nat) : Nat → Nat → Bool → List Call × Bool
  | 0, _, _ => ([], false)
  | fuel + 1, k, flag =>
    if flag then ([.glfwWindowShouldClose], true)
    else
      let rest := loopCalls env shaderProgram VAO fuel (k + 1) (flagAfter (env.frames k) false)
      (.glfwWindowShouldClose :: (iterationCalls (env.frames k) shaderProgram VAO ++ rest.1), rest.2)

/-- Contents of `infoLog` after the shader build: the log of the last check
that failed, cut to the buffer, or uninitialised when none failed. -/
def infoLogAfterBuild (env : Env) : Option String :=
  if !env.linkOk then some (truncateLog 512 env.programLog)
  else if !env.fragmentCompileOk then some (truncateLog 512 env.fragmentLog)
  else if !env.vertexCompileOk then some (truncateLog 512 env.vertexLog)
  else none

/-- State in which the frame loop is entered. -/
def setupWorld (env : Env) : World :=
  { trace := setupCalls env
    shouldClose := false
    viewport := some ⟨0, 0, 800, 600⟩
    fbCallback := some .framebuffer_size_callback
    infoLog := infoLogAfterBuild env }

/-- Lines 163-165 after the loop, or the unfinished run when fuel ran out. -/
def finish (r : World × Bool) : Run :=
  if r.2 then ⟨r.1.call .glfwTerminate, some 0⟩ else ⟨r.1, none⟩

/-- Close flag seen by the loop condition of iteration `k`, should the loop
get that far. -/
def flagAtTop (env : Env) : Nat → Bool
  | 0 => false
  | k + 1 => flagAfter (env.frames k) (flagAtTop env k)

/-! ## Classification of calls, and sample environments -/

/-- Calls that make up a diagnostic: info-log retrievals and printed messages. -/
def Call.isDiagnostic : Call → Bool
  | .cout _ => true
  | .glGetShaderInfoLog _ _ => true
  | .glGetProgramInfoLog _ _ => true
  | _ => false

/-- The text printed by a call, if it prints. -/
def Call.printed : Call → Option String
  | .cout text => some text
  | _ => none

/-- Calls that create, fill, link, configure or delete a shader, program,
buffer or vertex array (binding and drawing are not among them). -/
def Call.changesObjects : Call → Bool
  | .glCreateShader _ => true
  | .glShaderSource _ _ _ => true
  | .glCompileShader _ => true
  | .glDeleteShader _ => true
  | .glCreateProgram => true
  | .glAttachShader _ _ => true
  | .glLinkProgram _ => true
  | .glDeleteProgram _ => true
  | .glGenBuffers _ => true
  | .glBufferData _ _ _ _ => true
  | .glDeleteBuffers _ _ => true
  | .glGenVertexArrays _ => true
  | .glVertexAttribPointer _ _ _ _ _ _ => true
  | .glEnableVertexAttribArray _ => true
  | .glDeleteVertexArrays _ _ => true
  | _ => false

/-- Draw calls. -/
def Call.isDraw : Call → Bool
  | .glDrawArrays _ _ _ => true
  | _ => false

/-- Buffer uploads. -/
def Call.isBufferData : Call → Bool
  | .glBufferData _ _ _ _ => true
  | _ => false

/-- Attribute layout declarations. -/
def Call.isAttribPointer : Call → Bool
  | .glVertexAttribPointer _ _ _ _ _ _ => true
  | _ => false

/-- Attribute enables. -/
def Call.isAttribEnable : Call → Bool
  | .glEnableVertexAttribArray _ => true
  | _ => false

/-- Calls that create a program, a buffer or a vertex array. -/
def Call.createsObject : Call → Bool
  | .glCreateProgram => true
  | .glGenBuffers _ => true
  | .glGenVertexArrays _ => true
  | _ => false

/-- The messages printed during a run, in order. -/
def Run.printed (r : Run) : List String :=
  r.world.trace.filterMap Call.printed

/-- The same environment in which only the vertex compile fails, with log `log`. -/
def Env.onlyVertexFails (env : Env) (log : String) : Env :=
  { env with vertexCompileOk := false, fragmentCompileOk := true, linkOk := true,
             vertexLog := log }

/-- The same environment in which only the fragment compile fails, with log `log`. -/
def Env.onlyFragmentFails (env : Env) (log : String) : Env :=
  { env with vertexCompileOk := true, fragmentCompileOk := false, linkOk := true,
             fragmentLog := log }

/-- The same environment in which only the link fails, with log `log`. -/
def Env.onlyLinkFails (env : Env) (log : String) : Env :=
  { env with vertexCompileOk := true, fragmentCompileOk := true, linkOk := false,
             programLog := log }

/-- The shapes of call that an iteration of the frame loop can issue, for the
program `p` and vertex array `v`. -/
def isLoopCall (p v : Nat) : Call → Bool
  | .glfwWindowShouldClose => true
  | .glfwGetKey key => key = .GLFW_KEY_ESCAPE
  | .glfwSetWindowShouldClose value => value
  | .glClearColor r g b a =>
    r = .quot ⟨1010, 1⟩ ⟨2550, 1⟩ ∧ g = .quot ⟨330, 1⟩ ⟨2550, 1⟩ ∧
      b = .quot ⟨1890, 1⟩ ⟨2550, 1⟩ ∧ a = .lit ⟨10, 1⟩
  | .glClear mask => mask = .GL_COLOR_BUFFER_BIT
  | .glUseProgram program => program = p
  | .glBindVertexArray array => array = v
  | .glDrawArrays mode first count => mode = .GL_TRIANGLES ∧ first = 0 ∧ count = 3
  | .glfwPollEvents => true
  | .glViewport x y _ _ => x = 0 ∧ y = 0
  | .glfwSwapBuffers => true
  | _ => false

/-- Byte offsets, within the bound buffer, that a draw of `count` vertices
starting at vertex `first` fetches for an attribute of `size` float components
laid out with the given `stride` and start `pointer`. -/
def attributeBytes (size stride pointer first count : Nat) : List Nat :=
  (List.range count).flatMap fun i =>
    (List.range (size * sizeofFloat)).map fun b => pointer + (first + i) * stride + b

/-- Sample inputs: a resize event in iteration 0, Escape pressed in iteration 1. -/
def demoFrames (k : Nat) : FrameInput :=
  if k = 0 then ⟨false, [.framebufferSize 640 480]⟩
  else if k = 1 then ⟨true, []⟩
  else ⟨false, []⟩

/-- Sample environment: start-up succeeds, the fragment compile and the link
report failure, Escape is pressed in iteration 1. -/
def demoEnv : Env :=
  { glfwInitOk := true
    windowCreated := true
    gladLoaded := true
    vertexShaderName := 1
    fragmentShaderName := 2
    programName := 3
    bufferName := 1
    vertexArrayName := 1
    vertexCompileOk := true
    fragmentCompileOk := false
    linkOk := false
    vertexLog := ""
    fragmentLog := "0:5: unexpected token"
    programLog := "link failed"
    frames := demoFrames }

/-- Sample environment in which window creation fails. -/
def noWindowEnv : Env :=
  { demoEnv with windowCreated := false }

/-- Sample environment in which the function loader fails. -/
def noLoaderEnv : Env :=
  { demoEnv with gladLoaded := false }

/-- Calls of `n` consecutive full iterations starting at iteration `k`: each is
the test of the close flag followed by the calls of the body. -/
def iterationsFrom (env : Env) (shaderProgram VAO : Nat) (k : Nat) : Nat → List Call
  | 0 => []
  | n + 1 =>
    .glfwWindowShouldClose :: iterationCalls (env.frames k) shaderProgram VAO ++
      iterationsFrom env shaderProgram VAO (k + 1) n

/-! ## Basic facts about the library operations -/

@[simp]
theorem call_trace (w : World) (c : Call) : (w.call c).trace = w.trace ++ [c] := rfl
@[simp]
theorem call_shouldClose (w : World) (c : Call) : (w.call c).shouldClose = w.shouldClose := rfl
@[simp]
theorem call_viewport (w : World) (c : Call) : (w.call c).viewport = w.viewport := rfl
@[simp]
theorem call_fbCallback (w : World) (c : Call) : (w.call c).fbCallback = w.fbCallback := rfl
@[simp]
theorem call_infoLog (w : World) (c : Call) : (w.call c).infoLog = w.infoLog := rfl

theorem deliver_trace (w : World) (e : Event) :
    (deliver w e).trace = w.trace ++ callbackCalls w.fbCallback [e] := by
  cases e with
  | shouldClose v => simp [deliver, callbackCalls]
  | framebufferSize width height =>
    cases h : w.fbCallback with
    | none => simp [deliver, callbackCalls, h]
    | some cb =>
      cases cb
      simp [deliver, callbackCalls, h, Callback.invoke, framebuffer_size_callback, glViewport]

theorem deliver_fbCallback (w : World) (e : Event) : (deliver w e).fbCallback = w.fbCallback := by
  cases e with
  | shouldClose v => rfl
  | framebufferSize width height =>
    cases h : w.fbCallback with
    | none => simp [deliver, h]
    | some cb =>
      cases cb
      simp [deliver, h, Callback.invoke, framebuffer_size_callback, glViewport]

theorem deliver_infoLog (w : World) (e : Event) : (deliver w e).infoLog = w.infoLog := by
  cases e with
  | shouldClose v => rfl
  | framebufferSize width height =>
    cases h : w.fbCallback with
    | none => simp [deliver, h]
    | some cb =>
      cases cb
      simp [deliver, h, Callback.invoke, framebuffer_size_callback, glViewport]

theorem deliver_shouldClose (w : World) (e : Event) :
    (deliver w e).shouldClose = flagAfterEvents [e] w.shouldClose := by
  cases e with
  | shouldClose v => rfl
  | framebufferSize width height =>
    cases h : w.fbCallback with
    | none => simp [deliver, h, flagAfterEvents]
    | some cb =>
      cases cb
      simp [deliver, h, Callback.invoke, framebuffer_size_callback, glViewport, flagAfterEvents]

theorem callbackCalls_cons (cb : Option Callback) (e : Event) (es : List Event) :
    callbackCalls cb (e :: es) = callbackCalls cb [e] ++ callbackCalls cb es := by
  unfold callbackCalls
  rw [← List.filterMap_append]
  rfl

theorem foldl_deliver (events : List Event) (w : World) :
    (events.foldl deliver w).trace = w.trace ++ callbackCalls w.fbCallback events ∧
    (events.foldl deliver w).fbCallback = w.fbCallback ∧
    (events.foldl deliver w).infoLog = w.infoLog ∧
    (events.foldl deliver w).shouldClose = flagAfterEvents events w.shouldClose := by
  induction events generalizing w with
  | nil => simp [callbackCalls, flagAfterEvents]
  | cons e es ih =>
    obtain ⟨h1, h2, h3, h4⟩ := ih (deliver w e)
    simp only [List.foldl_cons]
    refine ⟨?_, ?_, ?_, ?_⟩
    · rw [h1, deliver_trace, deliver_fbCallback, callbackCalls_cons w.fbCallback e es,
        List.append_assoc]
    · rw [h2, deliver_fbCallback]
    · rw [h3, deliver_infoLog]
    · rw [h4, deliver_shouldClose]
      rfl

theorem mk_call (t : List Call) (s : Bool) (v : Option Viewport) (f : Option Callback)
    (i : Option String) (c : Call) : World.call ⟨t, s, v, f, i⟩ c = ⟨t ++ [c], s, v, f, i⟩ := rfl

theorem glfwWindowShouldClose_eq (w : World) :
    glfwWindowShouldClose w = (w.shouldClose, w.call .glfwWindowShouldClose) := rfl

theorem sizeofVertices_eq : sizeofVertices = 36 := rfl

theorem stride_eq : 3 * sizeofFloat = 12 := rfl

/-! ## The loop body and the loop -/

theorem processInput_trace (pressed : Bool) (w : World) :
    (processInput pressed w).trace = w.trace ++ inputCalls pressed := by
  cases pressed <;> simp [processInput, glfwGetKey, glfwSetWindowShouldClose, inputCalls]

theorem processInput_shouldClose (pressed : Bool) (w : World) :
    (processInput pressed w).shouldClose = (w.shouldClose || pressed) := by
  cases pressed <;> simp [processInput, glfwGetKey, glfwSetWindowShouldClose]

theorem processInput_fbCallback (pressed : Bool) (w : World) :
    (processInput pressed w).fbCallback = w.fbCallback := by
  cases pressed <;> simp [processInput, glfwGetKey, glfwSetWindowShouldClose]

theorem processInput_infoLog (pressed : Bool) (w : World) :
    (processInput pressed w).infoLog = w.infoLog := by
  cases pressed <;> simp [processInput, glfwGetKey, glfwSetWindowShouldClose]

theorem loopBody_trace (input : FrameInput) (p v : Nat) (w : World) :
    (loopBody input p v w).trace =
      w.trace ++ (inputCalls input.escapePressed ++
        [ .glClearColor (.quot ⟨1010, 1⟩ ⟨2550, 1⟩) (.quot ⟨330, 1⟩ ⟨2550, 1⟩)
            (.quot ⟨1890, 1⟩ ⟨2550, 1⟩) (.lit ⟨10, 1⟩),
          .glClear .GL_COLOR_BUFFER_BIT,
          .glUseProgram p,
          .glBindVertexArray v,
          .glDrawArrays .GL_TRIANGLES 0 3,
          .glfwPollEvents ]
        ++ callbackCalls w.fbCallback input.events ++ [ .glfwSwapBuffers ]) := by
  simp [loopBody, glfwPollEvents, foldl_deliver, processInput_trace, processInput_fbCallback]

theorem loopBody_shouldClose (input : FrameInput) (p v : Nat) (w : World) :
    (loopBody input p v w).shouldClose = flagAfter input w.shouldClose := by
  simp [loopBody, glfwPollEvents, foldl_deliver, processInput_shouldClose, flagAfter]

theorem loopBody_fbCallback (input : FrameInput) (p v : Nat) (w : World) :
    (loopBody input p v w).fbCallback = w.fbCallback := by
  simp [loopBody, glfwPollEvents, foldl_deliver, processInput_fbCallback]

theorem loopBody_infoLog (input : FrameInput) (p v : Nat) (w : World) :
    (loopBody input p v w).infoLog = w.infoLog := by
  simp [loopBody, glfwPollEvents, foldl_deliver, processInput_infoLog]

/-- The loop, run from a state in which the callback is registered, issues
exactly `loopCalls` and leaves the callback and `infoLog` alone. -/
theorem frameLoop_spec (env : Env) (p v : Nat) (fuel k : Nat) (w : World)
    (hcb : w.fbCallback = some .framebuffer_size_callback) :
    (frameLoop env p v fuel k w).1.trace = w.trace ++ (loopCalls env p v fuel k w.shouldClose).1 ∧
    (frameLoop env p v fuel k w).2 = (loopCalls env p v fuel k w.shouldClose).2 ∧
    (frameLoop env p v fuel k w).1.infoLog = w.infoLog := by
  induction fuel generalizing k w with
  | zero => simp [frameLoop, loopCalls]
  | succ fuel ih =>
    cases hflag : w.shouldClose with
    | true => simp [frameLoop, loopCalls, glfwWindowShouldClose_eq, hflag]
    | false =>
      have hb := ih (k + 1) (loopBody (env.frames k) p v (w.call .glfwWindowShouldClose))
        (by rw [loopBody_fbCallback]; exact hcb)
      rw [loopBody_shouldClose, loopBody_trace, loopBody_infoLog] at hb
      simp only [call_shouldClose, call_trace, call_fbCallback, call_infoLog, hflag, hcb] at hb
      simp only [frameLoop, loopCalls, glfwWindowShouldClose_eq, hflag]
      simp only [Bool.not_false, if_true, Bool.false_eq_true, if_false]
      obtain ⟨h1, h2, h3⟩ := hb
      refine ⟨?_, h2, h3⟩
      rw [h1]
      simp [iterationCalls]

/-! ## The shape of a run of `main` -/

set_option maxHeartbeats 2000000 in
theorem main_of_startupOk (env : Env) (fuel : Nat) (h : env.startupOk = true) :
    main env fuel =
      finish (frameLoop env env.programName env.vertexArrayName fuel 0 (setupWorld env)) := by
  obtain ⟨i, c, g, vs, fs, pn, bn, an, vok, fok, lok, vl, fl, pl, fr⟩ := env
  simp only [Env.startupOk, Bool.and_eq_true] at h
  obtain ⟨⟨h1, h2⟩, h3⟩ := h
  subst h1 h2 h3
  cases vok <;> cases fok <;> cases lok <;>
    (conv_rhs =>
      simp only [finish, setupWorld, setupCalls, bootstrapCalls, shaderBuildCalls,
        geometryCalls, vertexDiagnostic, fragmentDiagnostic, linkDiagnostic, diagnostic,
        infoLogAfterBuild, Bool.not_true, Bool.not_false, Bool.false_eq_true, if_false, if_true,
        List.nil_append, List.cons_append, List.append_assoc]) <;>
    (conv_lhs =>
      simp only [main, World.start, mk_call, World.cout, World.coutInfoLog, glViewport,
        glfwSetFramebufferSizeCallback, glGetShaderInfoLog, glGetProgramInfoLog, Bool.not_true,
        Bool.not_false, Bool.false_eq_true, if_false, if_true, List.nil_append, List.cons_append,
        List.append_assoc, Option.getD_some, sizeofVertices_eq, stride_eq])

theorem main_of_startup_failed (env : Env) (fuel : Nat) (h : env.startupOk = false) :
    (main env fuel).exit = some (-1) := by
  obtain ⟨i, c, g, vs, fs, pn, bn, an, vok, fok, lok, vl, fl, pl, fr⟩ := env
  cases i <;> cases c <;> cases g <;> simp [Env.startupOk] at h <;> simp [main]

/-- Trace, return value and log buffer of a run whose start-up succeeds. -/
theorem main_run (env : Env) (fuel : Nat) (h : env.startupOk = true) :
    (main env fuel).world.trace =
      setupCalls env ++ (loopCalls env env.programName env.vertexArrayName fuel 0 false).1 ++
        (if (loopCalls env env.programName env.vertexArrayName fuel 0 false).2
          then [.glfwTerminate] else []) ∧
    (main env fuel).exit =
      (if (loopCalls env env.programName env.vertexArrayName fuel 0 false).2
        then some 0 else none) ∧
    (main env fuel).world.infoLog = infoLogAfterBuild env := by
  obtain ⟨h1, h2, h3⟩ := frameLoop_spec env env.programName env.vertexArrayName fuel 0
    (setupWorld env) rfl
  rw [main_of_startupOk env fuel h]
  have hs : (setupWorld env).shouldClose = false := rfl
  have ht : (setupWorld env).trace = setupCalls env := rfl
  have hi : (setupWorld env).infoLog = infoLogAfterBuild env := rfl
  rw [hs] at h1 h2
  rw [ht] at h1
  rw [hi] at h3
  unfold finish
  rw [h2]
  cases hend : (loopCalls env env.programName env.vertexArrayName fuel 0 false).2
  · simp [h1, h3]
  · simp [h1, h3]

/-- The loop has ended within the fuel exactly when some condition test
within the fuel sees the close flag set. -/
theorem loopCalls_ended (env : Env) (p v : Nat) (fuel k : Nat) :
    (loopCalls env p v fuel k (flagAtTop env k)).2 = true ↔
      ∃ j, k ≤ j ∧ j < k + fuel ∧ flagAtTop env j = true := by
  induction fuel generalizing k with
  | zero =>
    simp only [loopCalls]
    constructor
    · intro hf
      cases hf
    · rintro ⟨j, h1, h2, _⟩
      omega
  | succ fuel ih =>
    cases hflag : flagAtTop env k with
    | true =>
      simp only [loopCalls, if_true]
      constructor
      · intro _
        exact ⟨k, le_refl k, by omega, hflag⟩
      · intro _
        trivial
    | false =>
      simp only [loopCalls, Bool.false_eq_true, if_false]
      have hnext : flagAtTop env (k + 1) = flagAfter (env.frames k) false := by
        simp [flagAtTop, hflag]
      rw [← hnext, ih (k + 1)]
      constructor
      · rintro ⟨j, h1, h2, h3⟩
        exact ⟨j, by omega, by omega, h3⟩
      · rintro ⟨j, h1, h2, h3⟩
        have hne : j ≠ k := by
          intro hjk
          rw [hjk, hflag] at h3
          cases h3
        exact ⟨j, by omega, by omega, h3⟩

theorem loopCalls_ended_zero (env : Env) (p v : Nat) (fuel : Nat) :
    (loopCalls env p v fuel 0 false).2 = true ↔ ∃ j, j < fuel ∧ flagAtTop env j = true := by
  have h := loopCalls_ended env p v fuel 0
  simp only [flagAtTop, Nat.zero_le, true_and, Nat.zero_add] at h
  exact h

/-- Events that do not clear the close flag leave a set flag set. -/
theorem flagAfterEvents_true (events : List Event)
    (h : Event.shouldClose false ∉ events) : flagAfterEvents events true = true := by
  induction events with
  | nil => rfl
  | cons e es ih =>
    have hes : Event.shouldClose false ∉ es := fun hm => h (List.mem_cons_of_mem _ hm)
    cases e with
    | shouldClose value =>
      cases value with
      | false => exact absurd (List.mem_cons_self _ _) h
      | true => exact ih hes
    | framebufferSize width height => exact ih hes

/-- Escape pressed in iteration `k`, with no event clearing the flag in that
iteration, makes the next condition test see the flag set. -/
theorem flagAtTop_after_escape (env : Env) (k : Nat)
    (hesc : (env.frames k).escapePressed = true)
    (hclear : Event.shouldClose false ∉ (env.frames k).events) :
    flagAtTop env (k + 1) = true := by
  simp only [flagAtTop, flagAfter, hesc, Bool.or_true]
  exact flagAfterEvents_true _ hclear

/-! ## Return value -/

theorem loopCalls_congr (env env2 : Env) (p v : Nat) (hf : env2.frames = env.frames)
    (fuel k : Nat) (flag : Bool) : loopCalls env2 p v fuel k flag = loopCalls env p v fuel k flag := by
  induction fuel generalizing k flag with
  | zero => rfl
  | succ fuel ih =>
    simp only [loopCalls, hf, ih]

theorem startupOk_eq_false (env : Env)
    (h : env.glfwInitOk = false ∨ env.windowCreated = false ∨ env.gladLoaded = false) :
    env.startupOk = false := by
  rcases h with h | h | h <;> simp [Env.startupOk, h]

theorem exit_of_startupOk (env : Env) (fuel : Nat) (h : env.startupOk = true) :
    (main env fuel).exit =
      if (loopCalls env env.programName env.vertexArrayName fuel 0 false).2
        then some 0 else none :=
  (main_run env fuel h).2.1

theorem exit_withStatuses (env : Env) (fuel : Nat) (a b c : Bool) :
    (main (env.withStatuses a b c) fuel).exit = (main env fuel).exit := by
  cases h : env.startupOk with
  | false =>
    rw [main_of_startup_failed env fuel h, main_of_startup_failed (env.withStatuses a b c) fuel h]
  | true =>
    rw [exit_of_startupOk env fuel h, exit_of_startupOk (env.withStatuses a b c) fuel h]
    rw [loopCalls_congr env (env.withStatuses a b c) _ _ rfl]
    rfl

/-- C1: `main` returns -1 when `glfwInit` fails, when `glfwCreateWindow` returns NULL or when
`gladLoadGLLoader` fails; when start-up succeeds it returns 0 as soon as the loop has ended
(some condition test within the fuel sees the close flag), and has not returned while no
test has seen the flag.  No other value is returned, and changing the answers of the three
shader status queries never changes the value. -/
theorem main_return_value (env : Env) (fuel : Nat) :
    ((env.glfwInitOk = false ∨ env.windowCreated = false ∨ env.gladLoaded = false) →
      (main env fuel).exit = some (-1)) ∧
    (env.startupOk = true → (∃ k, k < fuel ∧ flagAtTop env k = true) →
      (main env fuel).exit = some 0) ∧
    (env.startupOk = true → (∀ k, k < fuel → flagAtTop env k = false) →
      (main env fuel).exit = none) ∧
    ((main env fuel).exit = some (-1) ∨ (main env fuel).exit = some 0 ∨
      (main env fuel).exit = none) ∧
    (∀ vertexOk fragmentOk linkOk : Bool,
      (main (env.withStatuses vertexOk fragmentOk linkOk) fuel).exit = (main env fuel).exit) := by
  refine ⟨?_, ?_, ?_, ?_, ?_⟩
  · intro h
    exact main_of_startup_failed env fuel (startupOk_eq_false env h)
  · intro h hex
    rw [exit_of_startupOk env fuel h, (loopCalls_ended_zero env _ _ fuel).mpr hex]
    rfl
  · intro h hall
    rw [exit_of_startupOk env fuel h]
    cases hend : (loopCalls env env.programName env.vertexArrayName fuel 0 false).2 with
    | false => rfl
    | true =>
      obtain ⟨j, hj, hflag⟩ := (loopCalls_ended_zero env _ _ fuel).mp hend
      rw [hall j hj] at hflag
      cases hflag
  · cases h : env.startupOk with
    | false => exact Or.inl (main_of_startup_failed env fuel h)
    | true =>
      rw [exit_of_startupOk env fuel h]
      cases (loopCalls env env.programName env.vertexArrayName fuel 0 false).2
      · exact Or.inr (Or.inr rfl)
      · exact Or.inr (Or.inl rfl)
  · intro a b c
    exact exit_withStatuses env fuel a b c

/-- Witness for C1: with window creation failing the run returns -1; in the sample run,
where Escape is pressed in iteration 1, the run returns 0 within five condition tests,
whatever the status queries answer, and has not returned after two tests. -/
theorem main_return_value_witness :
    (main noWindowEnv 5).exit = some (-1) ∧ (main demoEnv 5).exit = some 0 ∧
      (main demoEnv 2).exit = none ∧
      (main (demoEnv.withStatuses true true true) 5).exit = (main demoEnv 5).exit :=
  ⟨(main_return_value noWindowEnv 5).1 (Or.inr (Or.inl rfl)),
    (main_return_value demoEnv 5).2.1 rfl ⟨2, by decide, by decide⟩,
    (main_return_value demoEnv 2).2.2.1 rfl (by decide),
    (main_return_value demoEnv 5).2.2.2.2 true true true⟩

/-! ## What the loop can issue -/

theorem callbackCalls_viewport (cb : Option Callback) (events : List Event) (c : Call)
    (h : c ∈ callbackCalls cb events) : ∃ width height, c = .glViewport 0 0 width height := by
  unfold callbackCalls at h
  rw [List.mem_filterMap] at h
  obtain ⟨e, _, he⟩ := h
  cases e with
  | shouldClose value => simp at he
  | framebufferSize width height =>
    cases cb with
    | none => simp at he
    | some f =>
      cases f
      simp only [Option.some.injEq] at he
      exact ⟨width, height, he.symm⟩

theorem iterationCalls_isLoopCall (input : FrameInput) (p v : Nat) (c : Call)
    (h : c ∈ iterationCalls input p v) : isLoopCall p v c = true := by
  simp only [iterationCalls, inputCalls, List.mem_append, List.mem_cons, List.mem_singleton,
    List.not_mem_nil, or_false] at h
  rcases h with ((h | h) | h) | h
  · rcases h with h | h
    · subst h
      simp [isLoopCall]
    · cases hp : input.escapePressed
      · simp [hp] at h
      · simp [hp] at h
        subst h
        simp [isLoopCall]
  · rcases h with h | h | h | h | h | h <;> subst h <;> simp [isLoopCall]
  · obtain ⟨width, height, hc⟩ := callbackCalls_viewport _ _ _ h
    subst hc
    simp [isLoopCall]
  · subst h
    simp [isLoopCall]

/-- Every call issued by the loop has one of the shapes of `isLoopCall`. -/
theorem loopCalls_isLoopCall (env : Env) (p v : Nat) (fuel k : Nat) (flag : Bool) (c : Call)
    (h : c ∈ (loopCalls env p v fuel k flag).1) : isLoopCall p v c = true := by
  induction fuel generalizing k flag with
  | zero => simp [loopCalls] at h
  | succ fuel ih =>
    cases flag with
    | true =>
      simp only [loopCalls, if_true, List.mem_singleton] at h
      subst h
      rfl
    | false =>
      simp only [loopCalls, Bool.false_eq_true, if_false, List.mem_cons, List.mem_append] at h
      rcases h with h | h | h
      · subst h
        rfl
      · exact iterationCalls_isLoopCall _ _ _ _ h
      · exact ih _ _ h

theorem filter_eq_nil_of_loopCalls (env : Env) (p v : Nat) (fuel k : Nat) (flag : Bool)
    (q : Call → Bool) (hq : ∀ c, isLoopCall p v c = true → q c = false) :
    (loopCalls env p v fuel k flag).1.filter q = [] := by
  rw [List.filter_eq_nil_iff]
  intro c hc
  rw [hq c (loopCalls_isLoopCall env p v fuel k flag c hc)]
  simp

theorem iterationCalls_countP_draw (input : FrameInput) (p v : Nat) :
    (iterationCalls input p v).countP Call.isDraw = 1 := by
  have hcb : (callbackCalls (some .framebuffer_size_callback) input.events).countP Call.isDraw
      = 0 := by
    rw [List.countP_eq_zero]
    intro c hc
    obtain ⟨width, height, h⟩ := callbackCalls_viewport _ _ _ hc
    subst h
    simp [Call.isDraw]
  cases hp : input.escapePressed <;>
    simp [iterationCalls, inputCalls, List.countP_append, List.countP_cons, hcb, hp, Call.isDraw]

/-- Once a condition test at iteration `K` would see the flag set, the loop
started at iteration `k` draws at most `K - k` times. -/
theorem loopCalls_countP_draw (env : Env) (p v : Nat) (K : Nat) (hK : flagAtTop env K = true)
    (fuel k : Nat) (hk : k ≤ K) :
    (loopCalls env p v fuel k (flagAtTop env k)).1.countP Call.isDraw ≤ K - k := by
  induction fuel generalizing k with
  | zero => simp [loopCalls]
  | succ fuel ih =>
    cases hflag : flagAtTop env k with
    | true => simp [loopCalls, Call.isDraw]
    | false =>
      have hne : k ≠ K := by
        intro hkK
        rw [hkK, hK] at hflag
        cases hflag
      have hnext : flagAtTop env (k + 1) = flagAfter (env.frames k) false := by
        simp [flagAtTop, hflag]
      have hrec := ih (k + 1) (by omega)
      rw [hnext] at hrec
      simp only [loopCalls, Bool.false_eq_true, if_false, List.countP_cons, List.countP_append,
        iterationCalls_countP_draw]
      have hlt : k < K := Nat.lt_of_le_of_ne hk hne
      have hz : (if Call.isDraw Call.glfwWindowShouldClose = true then 1 else 0) = 0 := rfl
      rw [hz]
      omega

theorem setupCalls_countP_draw (env : Env) : (setupCalls env).countP Call.isDraw = 0 := by
  rw [List.countP_eq_zero]
  intro c hc
  cases hv : env.vertexCompileOk <;> cases hf : env.fragmentCompileOk <;>
    cases hl : env.linkOk <;>
    simp only [setupCalls, bootstrapCalls, shaderBuildCalls, geometryCalls, vertexDiagnostic,
      fragmentDiagnostic, linkDiagnostic, diagnostic, hv, hf, hl, if_true, if_false,
      Bool.false_eq_true, List.mem_append, List.mem_cons, List.mem_singleton,
      List.not_mem_nil, or_false] at hc <;>
    aesop

/-! ## Escape ends the loop -/

theorem trace_of_ended (env : Env) (fuel : Nat) (h : env.startupOk = true)
    (hend : (loopCalls env env.programName env.vertexArrayName fuel 0 false).2 = true) :
    (main env fuel).world.trace =
      setupCalls env ++ (loopCalls env env.programName env.vertexArrayName fuel 0 false).1 ++
        [.glfwTerminate] := by
  rw [(main_run env fuel h).1, hend]
  rfl

/-- C3: `processInput` with Escape reported pressed sets the close flag, and with Escape not
pressed leaves the flag as it was.  In a run of `main` whose start-up succeeds, if Escape is
pressed in iteration `k` and no event of that iteration clears the flag, the condition test
of iteration `k + 1` sees the flag set; with fuel for that test the run returns 0, its last
call is `glfwTerminate`, and no more than `k + 1` iterations have drawn. -/
theorem escape_ends_loop (env : Env) (k : Nat) (w : World) :
    (processInput true w).shouldClose = true ∧
    (processInput false w).shouldClose = w.shouldClose ∧
    (env.startupOk = true → (env.frames k).escapePressed = true →
      Event.shouldClose false ∉ (env.frames k).events →
      flagAtTop env (k + 1) = true ∧
      ∀ fuel, k + 2 ≤ fuel →
        (main env fuel).exit = some 0 ∧
        (main env fuel).world.trace.getLast? = some .glfwTerminate ∧
        (main env fuel).world.trace.countP Call.isDraw ≤ k + 1) := by
  refine ⟨?_, ?_, ?_⟩
  · rw [processInput_shouldClose]
    simp
  · rw [processInput_shouldClose]
    simp
  · intro h hesc hclear
    have hflag := flagAtTop_after_escape env k hesc hclear
    refine ⟨hflag, ?_⟩
    intro fuel hfuel
    have hend : (loopCalls env env.programName env.vertexArrayName fuel 0 false).2 = true :=
      (loopCalls_ended_zero env _ _ fuel).mpr ⟨k + 1, by omega, hflag⟩
    have htrace := trace_of_ended env fuel h hend
    refine ⟨?_, ?_, ?_⟩
    · rw [exit_of_startupOk env fuel h, hend]
      rfl
    · rw [htrace]
      simp
    · have hdraw := loopCalls_countP_draw env env.programName env.vertexArrayName (k + 1) hflag
        fuel 0 (Nat.zero_le _)
      have hzero : flagAtTop env 0 = false := rfl
      rw [hzero] at hdraw
      rw [htrace, List.countP_append, List.countP_append, setupCalls_countP_draw]
      simp only [List.countP_cons, List.countP_nil, Call.isDraw]
      simp only [Bool.false_eq_true, if_false]
      omega

/-- Witness for C3: in the sample run Escape is pressed in iteration 1 and nothing clears
the flag, so with five condition tests the run returns 0 after `glfwTerminate`, having
drawn at most twice. -/
theorem escape_ends_loop_witness :
    flagAtTop demoEnv 2 = true ∧
      (main demoEnv 5).exit = some 0 ∧
      (main demoEnv 5).world.trace.getLast? = some .glfwTerminate ∧
      (main demoEnv 5).world.trace.countP Call.isDraw ≤ 2 :=
  ⟨((escape_ends_loop demoEnv 1 World.start).2.2 rfl rfl (by decide)).1,
    ((escape_ends_loop demoEnv 1 World.start).2.2 rfl rfl (by decide)).2 5 (by decide)⟩

/-! ## Diagnostics of the shader build -/

theorem setupCalls_filter_isDiagnostic (env : Env) :
    (setupCalls env).filter Call.isDiagnostic =
      vertexDiagnostic env ++ fragmentDiagnostic env ++ linkDiagnostic env := by
  cases hv : env.vertexCompileOk <;> cases hf : env.fragmentCompileOk <;>
    cases hl : env.linkOk <;>
    simp [setupCalls, bootstrapCalls, shaderBuildCalls, geometryCalls, vertexDiagnostic,
      fragmentDiagnostic, linkDiagnostic, diagnostic, hv, hf, hl, List.filter_cons,
      Call.isDiagnostic]

theorem setupCalls_filter_not_isDiagnostic (env : Env) :
    (setupCalls env).filter (fun c => !c.isDiagnostic) =
      setupCalls (env.withStatuses true true true) := by
  cases hv : env.vertexCompileOk <;> cases hf : env.fragmentCompileOk <;>
    cases hl : env.linkOk <;>
    simp [setupCalls, bootstrapCalls, shaderBuildCalls, geometryCalls, vertexDiagnostic,
      fragmentDiagnostic, linkDiagnostic, diagnostic, hv, hf, hl, List.filter_cons,
      Call.isDiagnostic, Env.withStatuses]

theorem isLoopCall_not_isDiagnostic (p v : Nat) (c : Call) (h : isLoopCall p v c = true) :
    c.isDiagnostic = false := by
  cases c <;> first | rfl | simp [isLoopCall] at h

theorem loopCalls_filter_not_isDiagnostic (env : Env) (p v : Nat) (fuel k : Nat) (flag : Bool) :
    (loopCalls env p v fuel k flag).1.filter (fun c => !c.isDiagnostic) =
      (loopCalls env p v fuel k flag).1 := by
  rw [List.filter_eq_self]
  intro c hc
  rw [isLoopCall_not_isDiagnostic p v c (loopCalls_isLoopCall env p v fuel k flag c hc)]
  rfl

theorem truncateLog_length (maxLength : Nat) (log : String) :
    (truncateLog maxLength log).length ≤ maxLength - 1 := by
  simp only [truncateLog, String.length, List.length_take]
  exact Nat.min_le_left _ _

/-- C4: in a run whose start-up succeeds, the info-log retrievals and printed messages of the
whole run are exactly: for the vertex compile check, nothing when it reported success, else
one retrieval with buffer size 512 followed by one message; then the same for the fragment
compile check; then the same for the link check.  Each check contributes on its own result
only.  A retrieved log is cut to at most 511 characters, and when all three checks report
success nothing is retrieved or printed. -/
theorem diagnostics_independent (env : Env) (fuel : Nat) (h : env.startupOk = true) :
    (main env fuel).world.trace.filter Call.isDiagnostic =
      (if env.vertexCompileOk then []
        else [ .glGetShaderInfoLog env.vertexShaderName 512,
               .cout ("ERROR::SHADER::VERTEX::COMPILATION_FAILED\n" ++
                 truncateLog 512 env.vertexLog ++ "\n") ]) ++
      (if env.fragmentCompileOk then []
        else [ .glGetShaderInfoLog env.fragmentShaderName 512,
               .cout ("ERROR::SHADER::VERTEX::COMPILATION_FAILED\n" ++
                 truncateLog 512 env.fragmentLog ++ "\n") ]) ++
      (if env.linkOk then []
        else [ .glGetProgramInfoLog env.programName 512,
               .cout ("ERROR::SHADER::ATTACHING::COMPILATION_FAILED\n" ++
                 truncateLog 512 env.programLog ++ "\n") ]) ∧
    (∀ log, (truncateLog 512 log).length ≤ 511) ∧
    (env.vertexCompileOk = true → env.fragmentCompileOk = true → env.linkOk = true →
      (main env fuel).world.trace.filter Call.isDiagnostic = []) := by
  have key : (main env fuel).world.trace.filter Call.isDiagnostic =
      vertexDiagnostic env ++ fragmentDiagnostic env ++ linkDiagnostic env := by
    rw [(main_run env fuel h).1, List.filter_append, List.filter_append,
      setupCalls_filter_isDiagnostic,
      filter_eq_nil_of_loopCalls env _ _ fuel 0 false Call.isDiagnostic
        (isLoopCall_not_isDiagnostic _ _)]
    cases (loopCalls env env.programName env.vertexArrayName fuel 0 false).2 <;>
      simp [Call.isDiagnostic]
  refine ⟨?_, ?_, ?_⟩
  · rw [key]
    rfl
  · intro log
    exact truncateLog_length 512 log
  · intro hv hf hl
    rw [key]
    simp [vertexDiagnostic, fragmentDiagnostic, linkDiagnostic, diagnostic, hv, hf, hl]

/-- Witness for C4: in the sample run the vertex check succeeds while the fragment and link
checks fail, and exactly the fragment and link diagnostics are emitted. -/
theorem diagnostics_independent_witness :
    (main demoEnv 5).world.trace.filter Call.isDiagnostic =
      [ .glGetShaderInfoLog 2 512,
        .cout "ERROR::SHADER::VERTEX::COMPILATION_FAILED\n0:5: unexpected token\n",
        .glGetProgramInfoLog 3 512,
        .cout "ERROR::SHADER::ATTACHING::COMPILATION_FAILED\nlink failed\n" ] :=
  (diagnostics_independent demoEnv 5 rfl).1.trans (by decide)

/-- C2: in a run whose start-up succeeds, whatever the three status queries answer, the
calls issued other than info-log retrievals and printed messages are exactly the calls of
the run in which all three report success, and the return value is the same.  That
all-success run creates, compiles and checks both shaders, attaches both, links, deletes
both shader objects, uploads the geometry and then runs the frame loop, which begins with
a test of the close flag. -/
theorem shader_failures_nonfatal (env : Env) (fuel : Nat) (h : env.startupOk = true) :
    (main env fuel).world.trace.filter (fun c => !c.isDiagnostic) =
      (main (env.withStatuses true true true) fuel).world.trace ∧
    (main env fuel).exit = (main (env.withStatuses true true true) fuel).exit ∧
    (main (env.withStatuses true true true) fuel).world.trace =
      bootstrapCalls ++
      [ .glCreateShader .GL_VERTEX_SHADER,
        .glShaderSource env.vertexShaderName 1 vertexShaderSource,
        .glCompileShader env.vertexShaderName,
        .glGetShaderiv env.vertexShaderName .GL_COMPILE_STATUS,
        .glCreateShader .GL_FRAGMENT_SHADER,
        .glShaderSource env.fragmentShaderName 1 fragmentShaderSource,
        .glCompileShader env.fragmentShaderName,
        .glGetShaderiv env.fragmentShaderName .GL_COMPILE_STATUS,
        .glCreateProgram,
        .glAttachShader env.programName env.vertexShaderName,
        .glAttachShader env.programName env.fragmentShaderName,
        .glLinkProgram env.programName,
        .glGetProgramiv env.programName .GL_LINK_STATUS,
        .glDeleteShader env.vertexShaderName,
        .glDeleteShader env.fragmentShaderName ] ++
      geometryCalls env ++
      (loopCalls env env.programName env.vertexArrayName fuel 0 false).1 ++
      (if (main env fuel).exit = some 0 then [.glfwTerminate] else []) ∧
    (0 < fuel →
      (loopCalls env env.programName env.vertexArrayName fuel 0 false).1.head? =
        some .glfwWindowShouldClose) := by
  have hok : (env.withStatuses true true true).startupOk = true := h
  have hloop : loopCalls (env.withStatuses true true true) env.programName env.vertexArrayName
      fuel 0 false = loopCalls env env.programName env.vertexArrayName fuel 0 false :=
    loopCalls_congr env (env.withStatuses true true true) _ _ rfl fuel 0 false
  have hrun := main_run env fuel h
  have hrunOk := main_run (env.withStatuses true true true) fuel hok
  have hn : (env.withStatuses true true true).programName = env.programName := rfl
  have ha : (env.withStatuses true true true).vertexArrayName = env.vertexArrayName := rfl
  rw [hn, ha, hloop] at hrunOk
  refine ⟨?_, ?_, ?_, ?_⟩
  · rw [hrun.1, hrunOk.1, List.filter_append, List.filter_append,
      setupCalls_filter_not_isDiagnostic, loopCalls_filter_not_isDiagnostic]
    cases (loopCalls env env.programName env.vertexArrayName fuel 0 false).2 <;>
      simp [Call.isDiagnostic]
  · rw [hrun.2.1, hrunOk.2.1]
  · rw [hrunOk.1, hrun.2.1]
    cases (loopCalls env env.programName env.vertexArrayName fuel 0 false).2 <;>
      simp [setupCalls, shaderBuildCalls, geometryCalls, vertexDiagnostic, fragmentDiagnostic,
        linkDiagnostic, diagnostic, Env.withStatuses]
  · intro hfuel
    obtain ⟨n, rfl⟩ : ∃ n, fuel = n + 1 := ⟨fuel - 1, by omega⟩
    simp [loopCalls]

/-- Witness for C2: the sample run, where the fragment compile and the link fail, issues
apart from its diagnostics the calls of the all-success run and returns the same value. -/
theorem shader_failures_nonfatal_witness :
    (main demoEnv 5).world.trace.filter (fun c => !c.isDiagnostic) =
      (main (demoEnv.withStatuses true true true) 5).world.trace ∧
    (main demoEnv 5).exit = (main (demoEnv.withStatuses true true true) 5).exit :=
  ⟨(shader_failures_nonfatal demoEnv 5 rfl).1, (shader_failures_nonfatal demoEnv 5 rfl).2.1⟩

/-! ## Geometry upload -/

theorem setupCalls_filter_isBufferData (env : Env) :
    (setupCalls env).filter Call.isBufferData =
      [.glBufferData .GL_ARRAY_BUFFER 36 vertices .GL_STATIC_DRAW] := by
  cases hv : env.vertexCompileOk <;> cases hf : env.fragmentCompileOk <;>
    cases hl : env.linkOk <;>
    simp [setupCalls, bootstrapCalls, shaderBuildCalls, geometryCalls, vertexDiagnostic,
      fragmentDiagnostic, linkDiagnostic, diagnostic, hv, hf, hl, List.filter_cons,
      Call.isBufferData]

theorem setupCalls_filter_isAttribPointer (env : Env) :
    (setupCalls env).filter Call.isAttribPointer =
      [.glVertexAttribPointer 0 3 .GL_FLOAT .GL_FALSE 12 0] := by
  cases hv : env.vertexCompileOk <;> cases hf : env.fragmentCompileOk <;>
    cases hl : env.linkOk <;>
    simp [setupCalls, bootstrapCalls, shaderBuildCalls, geometryCalls, vertexDiagnostic,
      fragmentDiagnostic, linkDiagnostic, diagnostic, hv, hf, hl, List.filter_cons,
      Call.isAttribPointer]

theorem setupCalls_filter_isAttribEnable (env : Env) :
    (setupCalls env).filter Call.isAttribEnable = [.glEnableVertexAttribArray 0] := by
  cases hv : env.vertexCompileOk <;> cases hf : env.fragmentCompileOk <;>
    cases hl : env.linkOk <;>
    simp [setupCalls, bootstrapCalls, shaderBuildCalls, geometryCalls, vertexDiagnostic,
      fragmentDiagnostic, linkDiagnostic, diagnostic, hv, hf, hl, List.filter_cons,
      Call.isAttribEnable]

/-- A filter that rejects every loop call and `glfwTerminate` sees only the set-up. -/
theorem filter_trace_of_setup (env : Env) (fuel : Nat) (h : env.startupOk = true)
    (q : Call → Bool)
    (hq : ∀ c, isLoopCall env.programName env.vertexArrayName c = true → q c = false)
    (ht : q .glfwTerminate = false) :
    (main env fuel).world.trace.filter q = (setupCalls env).filter q := by
  rw [(main_run env fuel h).1, List.filter_append, List.filter_append,
    filter_eq_nil_of_loopCalls env _ _ fuel 0 false q hq]
  cases (loopCalls env env.programName env.vertexArrayName fuel 0 false).2 <;> simp [ht]

theorem isLoopCall_isDraw (p v : Nat) (c : Call) (h : isLoopCall p v c = true)
    (hd : c.isDraw = true) : c = .glDrawArrays .GL_TRIANGLES 0 3 := by
  cases c <;> simp [Call.isDraw] at hd
  simp only [isLoopCall, decide_eq_true_eq] at h
  obtain ⟨h1, h2, h3⟩ := h
  subst h1 h2 h3
  rfl

/-- C5: in a run whose start-up succeeds, the array uploaded has 9 floats, that is 3
vertices of 3 components, and `sizeof` gives 36 bytes at 4 bytes per float; the one buffer
upload of the run sends these 36 bytes; the one attribute declaration of the run is index 0,
3 components, `GL_FLOAT`, `GL_FALSE`, stride 12 (3 floats), offset 0; the one attribute
enabled is index 0; every draw call is `glDrawArrays(GL_TRIANGLES, 0, 3)`; and the bytes
such a draw fetches at that layout are exactly bytes 0 to 35 of the buffer. -/
theorem geometry_layout (env : Env) (fuel : Nat) (h : env.startupOk = true) :
    vertices.length = 9 ∧ vertices.length = 3 * 3 ∧
    sizeofVertices = 36 ∧ sizeofVertices = 9 * sizeofFloat ∧ sizeofFloat = 4 ∧
    (main env fuel).world.trace.filter Call.isBufferData =
      [.glBufferData .GL_ARRAY_BUFFER 36 vertices .GL_STATIC_DRAW] ∧
    (main env fuel).world.trace.filter Call.isAttribPointer =
      [.glVertexAttribPointer 0 3 .GL_FLOAT .GL_FALSE 12 0] ∧
    12 = 3 * sizeofFloat ∧
    (main env fuel).world.trace.filter Call.isAttribEnable = [.glEnableVertexAttribArray 0] ∧
    (∀ c, c ∈ (main env fuel).world.trace → c.isDraw = true →
      c = .glDrawArrays .GL_TRIANGLES 0 3) ∧
    attributeBytes 3 12 0 0 3 = List.range sizeofVertices := by
  refine ⟨rfl, rfl, rfl, rfl, rfl, ?_, ?_, rfl, ?_, ?_, by decide⟩
  · rw [filter_trace_of_setup env fuel h Call.isBufferData ?_ rfl,
      setupCalls_filter_isBufferData]
    intro c hc
    cases c <;> first | rfl | simp [isLoopCall] at hc
  · rw [filter_trace_of_setup env fuel h Call.isAttribPointer ?_ rfl,
      setupCalls_filter_isAttribPointer]
    intro c hc
    cases c <;> first | rfl | simp [isLoopCall] at hc
  · rw [filter_trace_of_setup env fuel h Call.isAttribEnable ?_ rfl,
      setupCalls_filter_isAttribEnable]
    intro c hc
    cases c <;> first | rfl | simp [isLoopCall] at hc
  · intro c hc hd
    rw [(main_run env fuel h).1, List.mem_append, List.mem_append] at hc
    rcases hc with (hc | hc) | hc
    · have hz := setupCalls_countP_draw env
      rw [List.countP_eq_zero] at hz
      exact absurd hd (hz c hc)
    · exact isLoopCall_isDraw _ _ c (loopCalls_isLoopCall env _ _ fuel 0 false c hc) hd
    · have hterm : c = .glfwTerminate := by
        cases hend : (loopCalls env env.programName env.vertexArrayName fuel 0 false).2 <;>
          simp [hend] at hc
        exact hc
      subst hterm
      cases hd

/-- Witness for C5: the sample run uploads the 36 bytes once and declares the one
attribute. -/
theorem geometry_layout_witness :
    (main demoEnv 5).world.trace.filter Call.isBufferData =
      [.glBufferData .GL_ARRAY_BUFFER 36 vertices .GL_STATIC_DRAW] ∧
    (main demoEnv 5).world.trace.filter Call.isAttribPointer =
      [.glVertexAttribPointer 0 3 .GL_FLOAT .GL_FALSE 12 0] :=
  ⟨(geometry_layout demoEnv 5 rfl).2.2.2.2.2.1, (geometry_layout demoEnv 5 rfl).2.2.2.2.2.2.1⟩

/-! ## Viewport -/

theorem frameLoop_fbCallback (env : Env) (p v : Nat) (fuel k : Nat) (w : World) :
    (frameLoop env p v fuel k w).1.fbCallback = w.fbCallback := by
  induction fuel generalizing k w with
  | zero => rfl
  | succ fuel ih =>
    cases hflag : w.shouldClose with
    | true => simp [frameLoop, glfwWindowShouldClose_eq, hflag]
    | false =>
      simp only [frameLoop, glfwWindowShouldClose_eq, hflag, Bool.not_false, if_true]
      rw [ih, loopBody_fbCallback, call_fbCallback]

theorem finish_fbCallback (r : World × Bool) : (finish r).world.fbCallback = r.1.fbCallback := by
  unfold finish
  cases r.2 <;> simp

/-- C6: for every width and height, `framebuffer_size_callback` issues
`glViewport(0, 0, width, height)` and leaves the viewport at origin (0, 0) with that
width and height; so does a poll that delivers a framebuffer-size event to a window on
which the callback is registered.  In a run whose start-up succeeds the callback is
registered right before `gladLoadGLLoader`, the call right after the loader is
`glViewport(0, 0, 800, 600)`, the size the window was created with, and the callback stays
registered.  When the loader fails the callback has been registered all the same. -/
theorem viewport_follows_framebuffer (width height : Int) (w : World) (env : Env)
    (fuel : Nat) :
    (framebuffer_size_callback width height w).viewport = some ⟨0, 0, width, height⟩ ∧
    (framebuffer_size_callback width height w).trace =
      w.trace ++ [.glViewport 0 0 width height] ∧
    (w.fbCallback = some .framebuffer_size_callback →
      (glfwPollEvents [.framebufferSize width height] w).viewport =
        some ⟨0, 0, width, height⟩) ∧
    (env.startupOk = true →
      (∃ rest, (main env fuel).world.trace =
        [ .glfwInit,
          .glfwWindowHint .GLFW_CONTEXT_VERSION_MAJOR (.num 3),
          .glfwWindowHint .GLFW_CONTEXT_VERSION_MINOR (.num 3),
          .glfwWindowHint .GLFW_OPENGL_PROFILE (.const .GLFW_OPENGL_CORE_PROFILE),
          .glfwWindowHint .GLFW_RESIZABLE (.const .GLFW_FALSE),
          .glfwCreateWindow 800 600 "KREWER TEST",
          .glfwMakeContextCurrent,
          .glfwSetFramebufferSizeCallback .framebuffer_size_callback,
          .gladLoadGLLoader,
          .glViewport 0 0 800 600 ] ++ rest) ∧
      (main env fuel).world.fbCallback = some .framebuffer_size_callback ∧
      (main env 0).world.viewport = some ⟨0, 0, 800, 600⟩) ∧
    (env.glfwInitOk = true → env.windowCreated = true → env.gladLoaded = false →
      (main env fuel).world.trace =
        [ .glfwInit,
          .glfwWindowHint .GLFW_CONTEXT_VERSION_MAJOR (.num 3),
          .glfwWindowHint .GLFW_CONTEXT_VERSION_MINOR (.num 3),
          .glfwWindowHint .GLFW_OPENGL_PROFILE (.const .GLFW_OPENGL_CORE_PROFILE),
          .glfwWindowHint .GLFW_RESIZABLE (.const .GLFW_FALSE),
          .glfwCreateWindow 800 600 "KREWER TEST",
          .glfwMakeContextCurrent,
          .glfwSetFramebufferSizeCallback .framebuffer_size_callback,
          .gladLoadGLLoader,
          .cout "Failed to initialize GLAD\n" ] ∧
      (main env fuel).world.fbCallback = some .framebuffer_size_callback) := by
  refine ⟨?_, ?_, ?_, ?_, ?_⟩
  · cases w
    rfl
  · cases w
    rfl
  · intro hcb
    cases w
    simp only at hcb
    subst hcb
    rfl
  · intro h
    refine ⟨⟨shaderBuildCalls env ++ (geometryCalls env ++
      ((loopCalls env env.programName env.vertexArrayName fuel 0 false).1 ++
        (if (loopCalls env env.programName env.vertexArrayName fuel 0 false).2
          then [.glfwTerminate] else []))), ?_⟩, ?_, ?_⟩
    · rw [(main_run env fuel h).1]
      simp only [setupCalls, bootstrapCalls, List.append_assoc, List.cons_append,
        List.nil_append]
    · rw [main_of_startupOk env fuel h, finish_fbCallback, frameLoop_fbCallback]
      rfl
    · rw [main_of_startupOk env 0 h]
      rfl
  · intro h1 h2 h3
    simp only [main, h1, h2, h3, Bool.not_true, Bool.not_false, Bool.false_eq_true, if_false,
      if_true, World.start, mk_call, World.cout, glfwSetFramebufferSizeCallback,
      List.nil_append, List.cons_append, and_self]

/-- Witness for C6: on the sample run the callback is registered and the loop is entered
with the viewport 800 by 600; a poll delivering a resize to 640 by 480 in that state leaves
the viewport 640 by 480; and with the loader failing the callback is registered as well. -/
theorem viewport_follows_framebuffer_witness :
    (main demoEnv 5).world.fbCallback = some .framebuffer_size_callback ∧
    (main demoEnv 0).world.viewport = some ⟨0, 0, 800, 600⟩ ∧
    (glfwPollEvents [.framebufferSize 640 480] (setupWorld demoEnv)).viewport =
      some ⟨0, 0, 640, 480⟩ ∧
    (main noLoaderEnv 5).world.fbCallback = some .framebuffer_size_callback :=
  ⟨((viewport_follows_framebuffer 640 480 (setupWorld demoEnv) demoEnv 5).2.2.2.1 rfl).2.1,
    ((viewport_follows_framebuffer 640 480 (setupWorld demoEnv) demoEnv 5).2.2.2.1 rfl).2.2,
    (viewport_follows_framebuffer 640 480 (setupWorld demoEnv) demoEnv 5).2.2.1 rfl,
    ((viewport_follows_framebuffer 640 480 (setupWorld demoEnv) noLoaderEnv 5).2.2.2.2
      rfl rfl rfl).2⟩

/-! ## Order of the steps of an iteration -/

/-- The loop's calls are some number of full iterations, followed by one more
test of the close flag exactly when the loop has ended. -/
theorem loopCalls_iterations (env : Env) (p v : Nat) (fuel k : Nat) (flag : Bool) :
    ∃ n, n ≤ fuel ∧ (loopCalls env p v fuel k flag).1 =
      iterationsFrom env p v k n ++
        (if (loopCalls env p v fuel k flag).2 then [.glfwWindowShouldClose] else []) := by
  induction fuel generalizing k flag with
  | zero => exact ⟨0, le_refl 0, by simp [loopCalls, iterationsFrom]⟩
  | succ fuel ih =>
    cases flag with
    | true => exact ⟨0, Nat.zero_le _, by simp [loopCalls, iterationsFrom]⟩
    | false =>
      obtain ⟨n, hn, hrest⟩ := ih (k + 1) (flagAfter (env.frames k) false)
      refine ⟨n + 1, by omega, ?_⟩
      simp only [loopCalls, Bool.false_eq_true, if_false, iterationsFrom]
      rw [hrest]
      simp

theorem loopBody_trace_registered (input : FrameInput) (p v : Nat) (w : World)
    (hcb : w.fbCallback = some .framebuffer_size_callback) :
    (loopBody input p v w).trace = w.trace ++ iterationCalls input p v := by
  rw [loopBody_trace, hcb]
  rfl

theorem frameLoop_succ (env : Env) (p v : Nat) (fuel k : Nat) (w : World) :
    frameLoop env p v (fuel + 1) k w =
      if w.shouldClose then (w.call .glfwWindowShouldClose, true)
      else frameLoop env p v fuel (k + 1)
        (loopBody (env.frames k) p v (w.call .glfwWindowShouldClose)) := by
  cases hflag : w.shouldClose <;> simp [frameLoop, glfwWindowShouldClose_eq, hflag]

/-- C7: the calls of one iteration after its test of the close flag are, in this order:
`glfwGetKey` for the Escape key (the only key queried), then `glfwSetWindowShouldClose(true)`
exactly when Escape is pressed, `glClearColor(101/255, 33/255, 189/255, 1)`,
`glClear(GL_COLOR_BUFFER_BIT)`, `glUseProgram`, `glBindVertexArray`,
`glDrawArrays(GL_TRIANGLES, 0, 3)`, `glfwPollEvents` with the `glViewport` calls its
callback makes, and last `glfwSwapBuffers`.  The loop body issues exactly these calls, the
loop tests the close flag only before the body, and in a run of `main` whose start-up
succeeds the calls after the set-up are a number of such iterations, each in full, followed
by the final test and `glfwTerminate` when the loop has ended. -/
theorem iteration_order (input : FrameInput) (p v : Nat) (w : World) (env : Env)
    (fuel k : Nat) :
    iterationCalls input p v =
      [ .glfwGetKey .GLFW_KEY_ESCAPE ] ++
      (if input.escapePressed then [.glfwSetWindowShouldClose true] else []) ++
      [ .glClearColor (.quot ⟨1010, 1⟩ ⟨2550, 1⟩) (.quot ⟨330, 1⟩ ⟨2550, 1⟩)
          (.quot ⟨1890, 1⟩ ⟨2550, 1⟩) (.lit ⟨10, 1⟩),
        .glClear .GL_COLOR_BUFFER_BIT,
        .glUseProgram p,
        .glBindVertexArray v,
        .glDrawArrays .GL_TRIANGLES 0 3,
        .glfwPollEvents ] ++
      callbackCalls (some .framebuffer_size_callback) input.events ++
      [ .glfwSwapBuffers ] ∧
    (∀ c, c ∈ callbackCalls (some .framebuffer_size_callback) input.events →
      ∃ width height, c = .glViewport 0 0 width height) ∧
    (FloatExpr.quot ⟨1010, 1⟩ ⟨2550, 1⟩).toRat = 101 / 255 ∧
    (FloatExpr.quot ⟨330, 1⟩ ⟨2550, 1⟩).toRat = 33 / 255 ∧
    (FloatExpr.quot ⟨1890, 1⟩ ⟨2550, 1⟩).toRat = 189 / 255 ∧
    (FloatExpr.lit ⟨10, 1⟩).toRat = 1 ∧
    (w.fbCallback = some .framebuffer_size_callback →
      (loopBody input p v w).trace = w.trace ++ iterationCalls input p v) ∧
    Call.glfwWindowShouldClose ∉ iterationCalls input p v ∧
    frameLoop env p v (fuel + 1) k w =
      (if w.shouldClose then (w.call .glfwWindowShouldClose, true)
       else frameLoop env p v fuel (k + 1)
        (loopBody (env.frames k) p v (w.call .glfwWindowShouldClose))) ∧
    (env.startupOk = true →
      ∃ n, n ≤ fuel ∧ (main env fuel).world.trace =
        setupCalls env ++ iterationsFrom env env.programName env.vertexArrayName 0 n ++
          (if (main env fuel).exit = some 0
            then [.glfwWindowShouldClose, .glfwTerminate] else [])) := by
  refine ⟨?_, ?_, ?_, ?_, ?_, ?_, ?_, ?_, ?_, ?_⟩
  · cases hp : input.escapePressed <;> simp [iterationCalls, inputCalls, hp]
  · intro c hc
    exact callbackCalls_viewport _ _ c hc
  · norm_num [FloatExpr.toRat, FloatLit.toRat]
  · norm_num [FloatExpr.toRat, FloatLit.toRat]
  · norm_num [FloatExpr.toRat, FloatLit.toRat]
  · norm_num [FloatExpr.toRat, FloatLit.toRat]
  · exact loopBody_trace_registered input p v w
  · intro hmem
    have hloop := iterationCalls_isLoopCall input p v _ hmem
    have hcount : (iterationCalls input p v).countP (fun c => c = .glfwWindowShouldClose) = 0 := by
      have hcb : (callbackCalls (some .framebuffer_size_callback) input.events).countP
          (fun c => c = .glfwWindowShouldClose) = 0 := by
        rw [List.countP_eq_zero]
        intro c hc
        obtain ⟨width, height, hv⟩ := callbackCalls_viewport _ _ c hc
        subst hv
        simp
      cases hp : input.escapePressed <;>
        simp [iterationCalls, inputCalls, List.countP_append, List.countP_cons, hcb, hp]
    rw [List.countP_eq_zero] at hcount
    have := hcount _ hmem
    simp at this
  · exact frameLoop_succ env p v fuel k w
  · intro h
    obtain ⟨n, hn, hloop⟩ :=
      loopCalls_iterations env env.programName env.vertexArrayName fuel 0 false
    refine ⟨n, hn, ?_⟩
    rw [(main_run env fuel h).1, (main_run env fuel h).2.1, hloop]
    cases (loopCalls env env.programName env.vertexArrayName fuel 0 false).2 <;> simp

/-- Witness for C7: the sample run with five condition tests consists of the set-up, full
iterations, the final test and `glfwTerminate`; and the body run from the set-up state
issues the calls of one iteration. -/
theorem iteration_order_witness :
    (∃ n, n ≤ 5 ∧ (main demoEnv 5).world.trace =
      setupCalls demoEnv ++
        iterationsFrom demoEnv demoEnv.programName demoEnv.vertexArrayName 0 n ++
        (if (main demoEnv 5).exit = some 0
          then [.glfwWindowShouldClose, .glfwTerminate] else [])) ∧
    (loopBody (demoFrames 1) 3 1 (setupWorld demoEnv)).trace =
      (setupWorld demoEnv).trace ++ iterationCalls (demoFrames 1) 3 1 :=
  ⟨(iteration_order (demoFrames 1) 3 1 (setupWorld demoEnv) demoEnv 5 0).2.2.2.2.2.2.2.2.2 rfl,
    (iteration_order (demoFrames 1) 3 1 (setupWorld demoEnv) demoEnv 5 0).2.2.2.2.2.2.1 rfl⟩

/-! ## Event poll and buffer swap -/

/-- C8, as stated, fails: in an iteration with no key pressed and no pending event, run from
the start state, the buffer swap does not come before the event poll, and the last call is
not the event poll; the poll comes first and the swap is last. -/
theorem swap_then_poll_refuted :
    ¬ ((loopBody ⟨false, []⟩ 3 1 World.start).trace.indexOf .glfwSwapBuffers <
        (loopBody ⟨false, []⟩ 3 1 World.start).trace.indexOf .glfwPollEvents) ∧
    (loopBody ⟨false, []⟩ 3 1 World.start).trace.getLast? ≠ some .glfwPollEvents ∧
    (loopBody ⟨false, []⟩ 3 1 World.start).trace.indexOf .glfwPollEvents <
      (loopBody ⟨false, []⟩ 3 1 World.start).trace.indexOf .glfwSwapBuffers ∧
    (loopBody ⟨false, []⟩ 3 1 World.start).trace.getLast? = some .glfwSwapBuffers := by
  decide

/-- C8, amended: in every iteration, after the triangle is drawn the events are polled
first and the buffers are swapped afterwards.  The calls of the body are a first part that
ends with the draw call and contains neither a poll nor a swap, then `glfwPollEvents`, then
the `glViewport` calls made by the callback during the poll, then `glfwSwapBuffers` as the
last call of the iteration. -/
theorem poll_then_swap (input : FrameInput) (p v : Nat) (w : World) :
    ∃ front callbacks,
      (loopBody input p v w).trace =
        w.trace ++ front ++ [.glfwPollEvents] ++ callbacks ++ [.glfwSwapBuffers] ∧
      front.getLast? = some (.glDrawArrays .GL_TRIANGLES 0 3) ∧
      Call.glfwPollEvents ∉ front ∧ Call.glfwSwapBuffers ∉ front ∧
      (∀ c, c ∈ callbacks → ∃ width height, c = .glViewport 0 0 width height) ∧
      (loopBody input p v w).trace.getLast? = some .glfwSwapBuffers := by
  refine ⟨inputCalls input.escapePressed ++
      [ .glClearColor (.quot ⟨1010, 1⟩ ⟨2550, 1⟩) (.quot ⟨330, 1⟩ ⟨2550, 1⟩)
          (.quot ⟨1890, 1⟩ ⟨2550, 1⟩) (.lit ⟨10, 1⟩),
        .glClear .GL_COLOR_BUFFER_BIT,
        .glUseProgram p,
        .glBindVertexArray v,
        .glDrawArrays .GL_TRIANGLES 0 3 ],
    callbackCalls w.fbCallback input.events, ?_, ?_, ?_, ?_, ?_, ?_⟩
  · rw [loopBody_trace]
    simp
  · cases input.escapePressed <;> simp [inputCalls]
  · cases input.escapePressed <;> simp [inputCalls]
  · cases input.escapePressed <;> simp [inputCalls]
  · intro c hc
    exact callbackCalls_viewport _ _ c hc
  · rw [loopBody_trace]
    simp only [← List.append_assoc]
    exact List.getLast?_concat _

/-! ## Objects are created once and left alone -/

theorem setupCalls_filter_changesObjects (env : Env) :
    (setupCalls env).filter Call.changesObjects =
      [ .glCreateShader .GL_VERTEX_SHADER,
        .glShaderSource env.vertexShaderName 1 vertexShaderSource,
        .glCompileShader env.vertexShaderName,
        .glCreateShader .GL_FRAGMENT_SHADER,
        .glShaderSource env.fragmentShaderName 1 fragmentShaderSource,
        .glCompileShader env.fragmentShaderName,
        .glCreateProgram,
        .glAttachShader env.programName env.vertexShaderName,
        .glAttachShader env.programName env.fragmentShaderName,
        .glLinkProgram env.programName,
        .glDeleteShader env.vertexShaderName,
        .glDeleteShader env.fragmentShaderName,
        .glGenBuffers 1,
        .glGenVertexArrays 1,
        .glBufferData .GL_ARRAY_BUFFER 36 vertices .GL_STATIC_DRAW,
        .glVertexAttribPointer 0 3 .GL_FLOAT .GL_FALSE 12 0,
        .glEnableVertexAttribArray 0 ] := by
  cases hv : env.vertexCompileOk <;> cases hf : env.fragmentCompileOk <;>
    cases hl : env.linkOk <;>
    simp [setupCalls, bootstrapCalls, shaderBuildCalls, geometryCalls, vertexDiagnostic,
      fragmentDiagnostic, linkDiagnostic, diagnostic, hv, hf, hl, List.filter_cons,
      Call.changesObjects]

theorem setupCalls_filter_createsObject (env : Env) :
    (setupCalls env).filter Call.createsObject =
      [.glCreateProgram, .glGenBuffers 1, .glGenVertexArrays 1] := by
  cases hv : env.vertexCompileOk <;> cases hf : env.fragmentCompileOk <;>
    cases hl : env.linkOk <;>
    simp [setupCalls, bootstrapCalls, shaderBuildCalls, geometryCalls, vertexDiagnostic,
      fragmentDiagnostic, linkDiagnostic, diagnostic, hv, hf, hl, List.filter_cons,
      Call.createsObject]

theorem isLoopCall_not_changesObjects (p v : Nat) (c : Call) (h : isLoopCall p v c = true) :
    c.changesObjects = false := by
  cases c <;> first | rfl | simp [isLoopCall] at h

theorem isLoopCall_not_createsObject (p v : Nat) (c : Call) (h : isLoopCall p v c = true) :
    c.createsObject = false := by
  cases c <;> first | rfl | simp [isLoopCall] at h

/-- C9: in a run whose start-up succeeds, for every fuel (so for every number of loop
iterations): the trace is the set-up calls, then the loop's calls, then `glfwTerminate`
alone when the loop has ended.  The calls of the whole run that create a program, buffer or
vertex array are one `glCreateProgram`, one `glGenBuffers(1)` and one
`glGenVertexArrays(1)`; the calls of the whole run that create, fill, link, configure or
delete any object are the seventeen listed, all of them in the set-up, with no deletion of
the program, buffer or vertex array.  Every call of the loop is a flag test, key query,
flag set, clear, `glUseProgram`, `glBindVertexArray`, draw, poll, callback `glViewport` or
swap, none of which changes an object.  The two `glDeleteShader` calls come directly after
`glLinkProgram` among the object-changing calls; in the full set-up only the link-status
query and its diagnostic stand between them. -/
theorem objects_fixed_after_creation (env : Env) (fuel : Nat) (h : env.startupOk = true) :
    (main env fuel).world.trace =
      setupCalls env ++ (loopCalls env env.programName env.vertexArrayName fuel 0 false).1 ++
        (if (main env fuel).exit = some 0 then [.glfwTerminate] else []) ∧
    (main env fuel).world.trace.filter Call.createsObject =
      [.glCreateProgram, .glGenBuffers 1, .glGenVertexArrays 1] ∧
    (setupCalls env).filter Call.createsObject =
      [.glCreateProgram, .glGenBuffers 1, .glGenVertexArrays 1] ∧
    (main env fuel).world.trace.filter Call.changesObjects =
      [ .glCreateShader .GL_VERTEX_SHADER,
        .glShaderSource env.vertexShaderName 1 vertexShaderSource,
        .glCompileShader env.vertexShaderName,
        .glCreateShader .GL_FRAGMENT_SHADER,
        .glShaderSource env.fragmentShaderName 1 fragmentShaderSource,
        .glCompileShader env.fragmentShaderName,
        .glCreateProgram,
        .glAttachShader env.programName env.vertexShaderName,
        .glAttachShader env.programName env.fragmentShaderName,
        .glLinkProgram env.programName,
        .glDeleteShader env.vertexShaderName,
        .glDeleteShader env.fragmentShaderName,
        .glGenBuffers 1,
        .glGenVertexArrays 1,
        .glBufferData .GL_ARRAY_BUFFER 36 vertices .GL_STATIC_DRAW,
        .glVertexAttribPointer 0 3 .GL_FLOAT .GL_FALSE 12 0,
        .glEnableVertexAttribArray 0 ] ∧
    (setupCalls env).filter Call.changesObjects =
      (main env fuel).world.trace.filter Call.changesObjects ∧
    (∀ c, c ∈ (loopCalls env env.programName env.vertexArrayName fuel 0 false).1 →
      isLoopCall env.programName env.vertexArrayName c = true ∧ c.changesObjects = false) ∧
    Call.changesObjects .glfwTerminate = false ∧
    (∃ before after, setupCalls env =
      before ++
      [ .glLinkProgram env.programName,
        .glGetProgramiv env.programName .GL_LINK_STATUS ] ++
      (if env.linkOk then []
        else [ .glGetProgramInfoLog env.programName 512,
               .cout ("ERROR::SHADER::ATTACHING::COMPILATION_FAILED\n" ++
                 truncateLog 512 env.programLog ++ "\n") ]) ++
      [ .glDeleteShader env.vertexShaderName,
        .glDeleteShader env.fragmentShaderName ] ++ after) := by
  have hrun := main_run env fuel h
  have hch : (main env fuel).world.trace.filter Call.changesObjects =
      (setupCalls env).filter Call.changesObjects :=
    filter_trace_of_setup env fuel h Call.changesObjects (isLoopCall_not_changesObjects _ _) rfl
  refine ⟨?_, ?_, setupCalls_filter_createsObject env, ?_, ?_, ?_, rfl, ?_⟩
  · rw [hrun.1, hrun.2.1]
    cases (loopCalls env env.programName env.vertexArrayName fuel 0 false).2 <;> simp
  · rw [filter_trace_of_setup env fuel h Call.createsObject
      (isLoopCall_not_createsObject _ _) rfl, setupCalls_filter_createsObject]
  · rw [hch, setupCalls_filter_changesObjects]
  · rw [hch]
  · intro c hc
    have hl := loopCalls_isLoopCall env _ _ fuel 0 false c hc
    exact ⟨hl, isLoopCall_not_changesObjects _ _ c hl⟩
  · refine ⟨bootstrapCalls ++
      ([ .glCreateShader .GL_VERTEX_SHADER,
        .glShaderSource env.vertexShaderName 1 vertexShaderSource,
        .glCompileShader env.vertexShaderName,
        .glGetShaderiv env.vertexShaderName .GL_COMPILE_STATUS ]
      ++ vertexDiagnostic env ++
      [ .glCreateShader .GL_FRAGMENT_SHADER,
        .glShaderSource env.fragmentShaderName 1 fragmentShaderSource,
        .glCompileShader env.fragmentShaderName,
        .glGetShaderiv env.fragmentShaderName .GL_COMPILE_STATUS ]
      ++ fragmentDiagnostic env ++
      [ .glCreateProgram,
        .glAttachShader env.programName env.vertexShaderName,
        .glAttachShader env.programName env.fragmentShaderName ]), geometryCalls env, ?_⟩
    simp [setupCalls, shaderBuildCalls, linkDiagnostic, diagnostic]

/-- Witness for C9: the sample run creates one program, one buffer and one vertex array. -/
theorem objects_fixed_after_creation_witness :
    (main demoEnv 5).world.trace.filter Call.createsObject =
      [.glCreateProgram, .glGenBuffers 1, .glGenVertexArrays 1] :=
  (objects_fixed_after_creation demoEnv 5 rfl).2.1

/-! ## The printed headers and the shared log buffer -/

theorem isLoopCall_not_printed (p v : Nat) (c : Call) (h : isLoopCall p v c = true) :
    c.printed = none := by
  cases c <;> first | rfl | simp [isLoopCall] at h

theorem setupCalls_printed (env : Env) :
    (setupCalls env).filterMap Call.printed =
      (if env.vertexCompileOk then []
        else ["ERROR::SHADER::VERTEX::COMPILATION_FAILED\n" ++
          truncateLog 512 env.vertexLog ++ "\n"]) ++
      (if env.fragmentCompileOk then []
        else ["ERROR::SHADER::VERTEX::COMPILATION_FAILED\n" ++
          truncateLog 512 env.fragmentLog ++ "\n"]) ++
      (if env.linkOk then []
        else ["ERROR::SHADER::ATTACHING::COMPILATION_FAILED\n" ++
          truncateLog 512 env.programLog ++ "\n"]) := by
  cases hv : env.vertexCompileOk <;> cases hf : env.fragmentCompileOk <;>
    cases hl : env.linkOk <;>
    simp only [setupCalls, bootstrapCalls, shaderBuildCalls, geometryCalls, vertexDiagnostic,
      fragmentDiagnostic, linkDiagnostic, diagnostic, hv, hf, hl, List.filterMap_cons,
      List.filterMap_nil, List.filterMap_append, Call.printed, if_true, if_false,
      Bool.false_eq_true, List.nil_append, List.append_nil, List.cons_append]

/-- The messages printed by a run whose start-up succeeds are those of the
three status checks. -/
theorem printed_of_startupOk (env : Env) (fuel : Nat) (h : env.startupOk = true) :
    (main env fuel).printed =
      (if env.vertexCompileOk then []
        else ["ERROR::SHADER::VERTEX::COMPILATION_FAILED\n" ++
          truncateLog 512 env.vertexLog ++ "\n"]) ++
      (if env.fragmentCompileOk then []
        else ["ERROR::SHADER::VERTEX::COMPILATION_FAILED\n" ++
          truncateLog 512 env.fragmentLog ++ "\n"]) ++
      (if env.linkOk then []
        else ["ERROR::SHADER::ATTACHING::COMPILATION_FAILED\n" ++
          truncateLog 512 env.programLog ++ "\n"]) := by
  have hloop : (loopCalls env env.programName env.vertexArrayName fuel 0 false).1.filterMap
      Call.printed = [] := by
    rw [List.filterMap_eq_nil_iff]
    intro c hc
    exact isLoopCall_not_printed _ _ c (loopCalls_isLoopCall env _ _ fuel 0 false c hc)
  unfold Run.printed
  rw [(main_run env fuel h).1, List.filterMap_append, List.filterMap_append, hloop,
    setupCalls_printed]
  cases (loopCalls env env.programName env.vertexArrayName fuel 0 false).2 <;>
    simp [Call.printed]

/-- C10: the message printed when only the fragment shader fails to compile is, for the same
log text, identical to the message printed when only the vertex shader fails: both start
with the header `ERROR::SHADER::VERTEX::COMPILATION_FAILED`.  The message of a link failure
starts with a different header.  The log buffer is shared: when both compiles fail, the
second message shows the fragment log, and with the link succeeding the buffer ends up
holding the fragment log, the vertex log having been overwritten. -/
theorem fragment_header_same_as_vertex (env : Env) (fuel : Nat) (log : String)
    (h : env.startupOk = true) :
    (main (env.onlyVertexFails log) fuel).printed =
      ["ERROR::SHADER::VERTEX::COMPILATION_FAILED\n" ++ truncateLog 512 log ++ "\n"] ∧
    (main (env.onlyFragmentFails log) fuel).printed =
      ["ERROR::SHADER::VERTEX::COMPILATION_FAILED\n" ++ truncateLog 512 log ++ "\n"] ∧
    (main (env.onlyLinkFails log) fuel).printed =
      ["ERROR::SHADER::ATTACHING::COMPILATION_FAILED\n" ++ truncateLog 512 log ++ "\n"] ∧
    "ERROR::SHADER::ATTACHING::COMPILATION_FAILED\n" ≠
      "ERROR::SHADER::VERTEX::COMPILATION_FAILED\n" ∧
    (env.vertexCompileOk = false → env.fragmentCompileOk = false → env.linkOk = true →
      (main env fuel).printed =
        [ "ERROR::SHADER::VERTEX::COMPILATION_FAILED\n" ++
            truncateLog 512 env.vertexLog ++ "\n",
          "ERROR::SHADER::VERTEX::COMPILATION_FAILED\n" ++
            truncateLog 512 env.fragmentLog ++ "\n" ] ∧
      (main env fuel).world.infoLog = some (truncateLog 512 env.fragmentLog)) := by
  refine ⟨?_, ?_, ?_, by decide, ?_⟩
  · exact (printed_of_startupOk (env.onlyVertexFails log) fuel h).trans rfl
  · exact (printed_of_startupOk (env.onlyFragmentFails log) fuel h).trans rfl
  · exact (printed_of_startupOk (env.onlyLinkFails log) fuel h).trans rfl
  · intro hv hf hl
    constructor
    · rw [printed_of_startupOk env fuel h, hv, hf, hl]
      rfl
    · rw [(main_run env fuel h).2.2]
      simp [infoLogAfterBuild, hf, hl]

/-- Witness for C10: in the sample setting with both compiles failing, two messages with the
same header are printed and the buffer ends up with the fragment log. -/
theorem fragment_header_same_as_vertex_witness :
    (main (demoEnv.withStatuses false false true) 5).printed =
      [ "ERROR::SHADER::VERTEX::COMPILATION_FAILED\n" ++ truncateLog 512 "" ++ "\n",
        "ERROR::SHADER::VERTEX::COMPILATION_FAILED\n" ++
          truncateLog 512 "0:5: unexpected token" ++ "\n" ] ∧
    (main (demoEnv.withStatuses false false true) 5).world.infoLog =
      some (truncateLog 512 "0:5: unexpected token") :=
  (fragment_header_same_as_vertex (demoEnv.withStatuses false false true) 5 "" rfl).2.2.2.2
    rfl rfl rfl

end HelloTriangle
